import Mathlib

/-!
The LLDP announcement frame of nlldpd.

A shallow embedding of `src/nlldpd.c`.  One pass of `nlldpd_loop` writes an
Ethernet header and a sequence of TLVs into `packet` through the cursor `p`;
the frame handed to the sender is `packet[0 .. p - packet)`.

Conventions of the embedding:

* a byte is a `Nat`; the contents of a buffer are a `List Nat`;
* a C string is the list of its bytes before the terminating NUL, so `strlen`
  is `List.length`;
* `seclvl` and `mode` are only ever compared with `strcmp`, they are `String`s
  and `strcmp a b == 0` is `a = b`;
* `htons` / `htonl` return the bytes of their result as they lie in memory,
  which is big-endian on every host;
* `tlv` and `packet` are buffers of a fixed size, `sizeof_lldp_tlv` and
  `sizeof_packet` bytes; a write that would run past the end of either leaves
  no contents, since the C program has no defined behaviour from there on; the
  cursor `p` is kept as the offset `p - packet` and moves on whether or not the
  write fits, so that `len = p - packet` is defined for every configuration;
* the send path, `nlldpd_nonblock_write` and the test behind it in `nlldpd_loop`,
  runs against two sequences of answers of the outside world, one for
  `ndm_sys_is_interrupted` and one for `sendto`, and returns what it leaves
  behind: the result, the calls made, the backoffs slept and the lines logged;
* the socket setup in `nlldpd_main` and the end of `main` run against the values
  returned by `socket`, `fcntl` and `bind`.
-/

namespace Nlldpd

/-! ## Constants -/

def SEND_INTERVAL : Nat := 60 * 1000
def SEND_TTL : Nat := 120
def READ_RETRY_MS : Nat := 100
def READ_RETRY_TIMES : Nat := 5
def ETH_P_LLDP : Nat := 0x88cc
def ETHER_ADDR_LEN : Nat := 6

/-- The size of `uint8_t packet[1024]` in `nlldpd_loop`. -/
def sizeof_packet : Nat := 1024

/-- The size of the packed `struct lldp_tlv`: `uint16_t hdr` and 512 bytes of data. -/
def sizeof_lldp_tlv : Nat := 2 + 512

def dst_broadcast_mac : List Nat := [0xff, 0xff, 0xff, 0xff, 0xff, 0xff]
def dst_multicast_mac : List Nat := [0x01, 0x80, 0xc2, 0x00, 0x00, 0x0e]

/-! ## Byte order -/

/-- The two bytes, in memory order, of `htons(v)`; the argument is a `uint16_t`. -/
def htons (v : Nat) : List Nat := [v % 65536 / 256, v % 256]

/-- The four bytes, in memory order, of `htonl(v)`; the argument is a `uint32_t`. -/
def htonl (v : Nat) : List Nat :=
  [v % 4294967296 / 16777216, v / 65536 % 256, v / 256 % 256, v % 256]

/-- `TLV_HDR(id_, len_)` is `htons((uint16_t)(((id_) << 9) + (len_)))`. -/
def TLV_HDR (id_ len_ : Nat) : List Nat := htons (((id_ <<< 9) + len_) % 65536)

/-! ## Memory writes

A buffer is an `Option (List Nat)`: `some` of its bytes, whose number is the size of the C
object and never changes, or `none` once a write has run past its end; from there on the C
program has no defined behaviour and the contents are not known. -/

/-- Write `bytes` into a buffer starting at offset `off` (a `memcpy`, or a store through a
cast pointer).  The write must end inside the buffer. -/
def store (buf : Option (List Nat)) (off : Nat) (bytes : List Nat) : Option (List Nat) :=
  match buf with
  | none => none
  | some b =>
    if off + bytes.length ≤ b.length then
      some (b.take off ++ bytes ++ b.drop (off + bytes.length))
    else none

/-- The bytes of `tlv` behind `memset(&tlv, 0, sizeof(tlv))`. -/
def memset_tlv : List Nat := List.replicate sizeof_lldp_tlv 0

/-- The state of the loop body while the frame is built: the array `packet` and the cursor
`p`, kept as the offset `p - packet`. -/
structure builder where
  packet : Option (List Nat)
  p : Nat

/-- The state behind `uint8_t *p = packet` and `memset(p, 0, sizeof(packet))`. -/
def memset_packet : builder :=
  { packet := some (List.replicate sizeof_packet 0), p := 0 }

/-- The pair `memcpy(p, src, n); p += n`: the `n` bytes are read from `src`, which must
hold as many, and written at the cursor, inside `packet`. -/
def memcpy_p (b : builder) (src : List Nat) (n : Nat) : builder :=
  { packet := if n ≤ src.length then store b.packet b.p (src.take n) else none,
    p := b.p + n }

/-- `TLV_ADD(p_, tlv_, tlv_len_)`: copy the first `tlv_len_ + 2` bytes of the TLV to the
cursor and advance the cursor by as much. -/
def TLV_ADD (b : builder) (tlv : Option (List Nat)) (tlv_len : Nat) : builder :=
  { packet :=
      match tlv with
      | none => none
      | some t => (memcpy_p b t (tlv_len + 2)).packet,
    p := b.p + (tlv_len + 2) }

/-! ## Configuration -/

/-- The first `ETHER_ADDR_LEN` bytes of `mac.sa.sa_data`, the only ones the program reads. -/
structure ndm_mac_addr_t where
  d0 : Nat
  d1 : Nat
  d2 : Nat
  d3 : Nat
  d4 : Nat
  d5 : Nat
deriving DecidableEq, Repr

def ndm_mac_addr_t.sa_data (m : ndm_mac_addr_t) : List Nat :=
  [m.d0, m.d1, m.d2, m.d3, m.d4, m.d5]

/-- The field `un.in.sin_addr.s_addr` of the address, as its four bytes in memory.  The
field is kept in network byte order, so `10.0.0.1` is `10, 0, 0, 1`. -/
structure ndm_ip_sockaddr_t where
  a0 : Nat
  a1 : Nat
  a2 : Nat
  a3 : Nat
deriving DecidableEq, Repr

def ndm_ip_sockaddr_t.s_addr (a : ndm_ip_sockaddr_t) : List Nat := [a.a0, a.a1, a.a2, a.a3]

/-- Modelled from the spec: `NDM_IP_SOCKADDR_ANY` belongs to libndm, which is not part of
the sources; the spec calls it the unspecified address, `0.0.0.0`. -/
def NDM_IP_SOCKADDR_ANY : ndm_ip_sockaddr_t := ⟨0, 0, 0, 0⟩

/-- Modelled from the spec: `ndm_ip_sockaddr_is_equal` belongs to libndm, which is not part
of the sources; the spec compares the configured IPv4 address with the unspecified one. -/
def ndm_ip_sockaddr_is_equal (a b : ndm_ip_sockaddr_t) : Bool := decide (a = b)

/-- The external configuration: the file-scope variables set by `main`. -/
structure Config where
  debug : Bool
  seclvl : String
  mode : String
  mac : ndm_mac_addr_t
  interface_id : List Nat
  interface_idx : Int
  system_name : List Nat
  port_description : List Nat
  description : List Nat
  ipv4_address : ndm_ip_sockaddr_t
  port : Nat
  is_bridge : Bool
  is_wlan_ap : Bool

/-! ## One pass of `nlldpd_loop` -/

/-- The destination address chosen at the top of the loop body. -/
def dst_mac (c : Config) : List Nat :=
  if c.seclvl = "private" then dst_broadcast_mac else dst_multicast_mac

/-- The Ethernet header: destination, source, `htons(ETH_P_LLDP)`. -/
def ethernet_header (c : Config) (b : builder) : builder :=
  let b := memcpy_p b (dst_mac c) ETHER_ADDR_LEN
  let b := memcpy_p b c.mac.sa_data ETHER_ADDR_LEN
  memcpy_p b (htons ETH_P_LLDP) 2

/-- Block `Chassis ID`. -/
def chassis_id (c : Config) (b : builder) : builder :=
  let tlv_len := 7
  let tlv := some memset_tlv
  let tlv := store tlv 0 (TLV_HDR 1 tlv_len)
  let tlv := store tlv 2 [4]
  let tlv := store tlv 3 (c.mac.sa_data.take ETHER_ADDR_LEN)
  TLV_ADD b tlv tlv_len

/-- Block `Port ID`. -/
def port_id (c : Config) (b : builder) : builder :=
  let tlv_len := 1 + c.interface_id.length
  let tlv := some memset_tlv
  let tlv := store tlv 0 (TLV_HDR 2 tlv_len)
  let tlv := store tlv 2 [5]
  let tlv := store tlv 3 (c.interface_id.take c.interface_id.length)
  TLV_ADD b tlv tlv_len

/-- Block `TTL`. -/
def ttl (b : builder) : builder :=
  let tlv_len := 2
  let tlv := some memset_tlv
  let tlv := store tlv 0 (TLV_HDR 3 tlv_len)
  let tlv := store tlv 2 (htons SEND_TTL)
  TLV_ADD b tlv tlv_len

/-- The three string blocks `port description`, `System name`, `System description` have
one shape: the TLV number and the string differ. -/
def string_tlv (id_ : Nat) (s : List Nat) (b : builder) : builder :=
  let tlv_len := s.length
  let tlv := some memset_tlv
  let tlv := store tlv 0 (TLV_HDR id_ tlv_len)
  let tlv := store tlv 2 (s.take s.length)
  TLV_ADD b tlv tlv_len

/-- The guard of block `management access`. -/
def management_gate (c : Config) : Bool :=
  (!ndm_ip_sockaddr_is_equal c.ipv4_address NDM_IP_SOCKADDR_ANY) && decide (c.seclvl = "private")

/-- Block `management access`. -/
def management_access (c : Config) (b : builder) : builder :=
  let tlv_len := 12
  let tlv := some memset_tlv
  let tlv := store tlv 0 (TLV_HDR 8 tlv_len)
  let tlv := store tlv (2 + 0) [5]
  let tlv := store tlv (2 + 1) [1]
  let tlv := store tlv (2 + 2) c.ipv4_address.s_addr
  let tlv := store tlv (2 + 6) [2]
  let tlv := store tlv (2 + 7) (htonl (c.interface_idx % 4294967296).toNat)
  TLV_ADD b tlv tlv_len

/-- The value of `caps` when the Capabilities TLV is written. -/
def caps (c : Config) : Nat :=
  let caps := 0
  let caps := if c.is_bridge then (caps + (1 <<< 2)) % 65536 else caps
  if c.mode = "router" then (caps + (1 <<< 4)) % 65536
  else if c.mode = "repeater" then (caps + (1 <<< 1)) % 65536
  else caps

/-- Block `Capabilities`. -/
def capabilities (c : Config) (b : builder) : builder :=
  let tlv_len := 4
  let tlv := some memset_tlv
  let tlv := store tlv 0 (TLV_HDR 7 tlv_len)
  let tlv := store tlv 2 (htons (caps c))
  let tlv := store tlv (2 + 2) (htons (caps c))
  TLV_ADD b tlv tlv_len

/-- The value of `mval` when the System Mode TLV is written. -/
def mval (c : Config) : Nat :=
  if c.mode = "client" then 2
  else if c.mode = "repeater" then 3
  else if c.mode = "ap" then 4
  else 1

/-- Block `NDM Specific System Mode`. -/
def ndm_system_mode (c : Config) (b : builder) : builder :=
  let tlv_len := 5
  let tlv := some memset_tlv
  let tlv := store tlv 0 (TLV_HDR 127 tlv_len)
  let tlv := store tlv 2 [0xce]
  let tlv := store tlv (2 + 1) [0x1e]
  let tlv := store tlv (2 + 2) [0xe7]
  let tlv := store tlv (2 + 3) [1]
  let tlv := store tlv (2 + 4) [mval c % 256]
  TLV_ADD b tlv tlv_len

/-- Block `NDM Specific HTTP port`. -/
def ndm_http_port (c : Config) (b : builder) : builder :=
  let tlv_len := 6
  let tlv := some memset_tlv
  let tlv := store tlv 0 (TLV_HDR 127 tlv_len)
  let tlv := store tlv 2 [0xce]
  let tlv := store tlv (2 + 1) [0x1e]
  let tlv := store tlv (2 + 2) [0xe7]
  let tlv := store tlv (2 + 3) [2]
  let tlv := store tlv (2 + 4) (htons c.port)
  TLV_ADD b tlv tlv_len

/-- Block `End of LLDPDU`: two bytes of the zeroed TLV. -/
def end_of_lldpdu (b : builder) : builder :=
  let tlv := memset_tlv
  memcpy_p b tlv 2

/-- The state at the end of one pass of the loop body of `nlldpd_loop`, where the frame is
handed to `nlldpd_nonblock_write`. -/
def nlldpd_loop_build (c : Config) : builder :=
  let b := memset_packet
  let b := ethernet_header c b
  let b := chassis_id c b
  let b := port_id c b
  let b := ttl b
  let b := string_tlv 4 c.port_description b
  let b := string_tlv 5 c.system_name b
  let b := string_tlv 6 c.description b
  let b := if management_gate c then management_access c b else b
  let b := capabilities c b
  let b := if c.seclvl = "private" then ndm_system_mode c b else b
  let b := if c.seclvl = "private" ∧ c.port ≠ 0 then ndm_http_port c b else b
  end_of_lldpdu b

/-- The value of `len = (size_t)(p - packet)`. -/
def nlldpd_loop_len (c : Config) : Nat := (nlldpd_loop_build c).p

/-- The frame handed to `nlldpd_nonblock_write`: the bytes `packet[0 .. len)`, when every
write of the pass has stayed inside `tlv` and `packet`. -/
def nlldpd_loop_packet (c : Config) : Option (List Nat) :=
  (nlldpd_loop_build c).packet.map (fun m => m.take (nlldpd_loop_len c))

/-! ## Reading a frame back

The claims speak of the TLVs a receiver finds in the frame.  The definitions of this
section are that reading; they are not part of the program. -/

/-- The TLV type held in the two header bytes: the top 7 bits of the big-endian word. -/
def hdr_type (b0 b1 : Nat) : Nat := (b0 * 256 + b1) >>> 9

/-- The value length held in the two header bytes: the low 9 bits of the big-endian word. -/
def hdr_len (b0 b1 : Nat) : Nat := (b0 * 256 + b1) &&& 0x1ff

/-- Walk a payload TLV by TLV: read a 2-byte header, take the declared number of value
bytes, go on behind them, until no byte is left.  The result lists type and value of every
TLV met; it is `none` when a header or a value is cut short, or when the fuel runs out. -/
def tlv_walk : Nat → List Nat → Option (List (Nat × List Nat))
  | _, [] => some []
  | 0, _ :: _ => none
  | _ + 1, [_] => none
  | fuel + 1, b0 :: b1 :: rest =>
    if hdr_len b0 b1 ≤ rest.length then
      (tlv_walk fuel (rest.drop (hdr_len b0 b1))).map
        (fun l => (hdr_type b0 b1, rest.take (hdr_len b0 b1)) :: l)
    else none

/-- The TLVs of a frame: the walk over the bytes behind the 14-byte Ethernet header.  Every
TLV takes at least two bytes, so the length of the frame is fuel enough. -/
def frame_tlvs (frame : List Nat) : Option (List (Nat × List Nat)) :=
  tlv_walk frame.length (frame.drop 14)

/-- The strings of the configuration fit the 9-bit length field of their TLV: the Port ID
value is one subtype byte and the interface name, the other three values are the string. -/
def Config.fits (c : Config) : Prop :=
  c.interface_id.length ≤ 510 ∧ c.port_description.length ≤ 511 ∧
    c.system_name.length ≤ 511 ∧ c.description.length ≤ 511

instance (c : Config) : Decidable c.fits := by
  unfold Config.fits; infer_instance

/-- Every write of the pass stays inside its buffer: the interface name fits the 511 bytes
of `tlv.u.sub.data`, the three other strings fit the 512 bytes of `tlv.u.data`, and the
cursor ends inside `packet`. -/
def Config.in_bounds (c : Config) : Prop :=
  c.interface_id.length ≤ 511 ∧ c.port_description.length ≤ 512 ∧
    c.system_name.length ≤ 512 ∧ c.description.length ≤ 512 ∧
    nlldpd_loop_len c ≤ sizeof_packet

instance (c : Config) : Decidable c.in_bounds := by
  unfold Config.in_bounds; infer_instance

/-- The bytes of one TLV: header, then value. -/
def tlv_bytes (x : Nat × List Nat) : List Nat := TLV_HDR x.1 x.2.length ++ x.2

/-- The value bytes of the Management Address TLV. -/
def management_value (c : Config) : List Nat :=
  [5, 1] ++ c.ipv4_address.s_addr ++ [2] ++ htonl (c.interface_idx % 4294967296).toNat ++ [0]

/-- The TLVs written by one pass before the End TLV, in the order of the writes, as pairs
of the number given to `TLV_HDR` and the value bytes. -/
def written_tlvs (c : Config) : List (Nat × List Nat) :=
  [(1, 4 :: c.mac.sa_data), (2, 5 :: c.interface_id), (3, htons SEND_TTL),
    (4, c.port_description), (5, c.system_name), (6, c.description)] ++
  (if management_gate c then [(8, management_value c)] else []) ++
  [(7, htons (caps c) ++ htons (caps c))] ++
  (if c.seclvl = "private" then [(127, [0xce, 0x1e, 0xe7, 1, mval c % 256])] else []) ++
  (if c.seclvl = "private" ∧ c.port ≠ 0 then [(127, [0xce, 0x1e, 0xe7, 2] ++ htons c.port)]
    else [])

/-- The bytes of the Ethernet header and of the TLVs of `written_tlvs`, closed by the End
TLV: what an in-bounds pass leaves in `packet[0 .. len)`. -/
def frame_bytes (c : Config) : List Nat :=
  dst_mac c ++ c.mac.sa_data ++ [0x88, 0xcc] ++ (written_tlvs c ++ [(0, [])]).flatMap tlv_bytes

/-! ## The send path: `nlldpd_nonblock_write` and the end of the loop body

The outside world is given by two sequences: `interrupted i` is the answer of the `i`-th
call of `ndm_sys_is_interrupted` inside `nlldpd_nonblock_write`, `sendto i` the outcome of
the `i`-th call of `sendto`, both counted from 0.  Every turn of the loop makes one test
and then at most one call, so one index serves both. -/

/-- Values of `errno.h` on Linux, where `EWOULDBLOCK` is `EAGAIN`. -/
def EINTR : Nat := 4
def EAGAIN : Nat := 11
def EWOULDBLOCK : Nat := 11

/-- Values of `stdlib.h`. -/
def EXIT_SUCCESS : Nat := 0
def EXIT_FAILURE : Nat := 1

/-- The outcome of one call of `sendto`: the returned `ssize_t` and the value of `errno`
behind it. -/
structure sendto_result where
  n : Int
  errno : Nat
deriving DecidableEq, Repr

/-- The argument of `nanosleep`. -/
structure timespec where
  tv_sec : Nat
  tv_nsec : Nat
deriving DecidableEq, Repr

/-- What a call of `nlldpd_nonblock_write` leaves behind: the returned flag, the value of
`*bytes_written`, the number of calls of `sendto`, the arguments of the calls of
`nanosleep` and the lines given to `NDM_LOG_ERROR`. -/
structure write_result where
  ret : Bool
  bytes_written : Nat
  sendto_calls : Nat
  sleeps : List timespec
  errors : List String
deriving DecidableEq, Repr

/-- The `while` loop of `nlldpd_nonblock_write`, from the test of turn `i` on, with the
current values of `bwrite` and `retries`.  The fuel bounds the number of tests; `none`
means that the loop is still running when it is spent. -/
def nlldpd_nonblock_write_loop (interrupted : Nat → Bool) (sendto : Nat → sendto_result) :
    Nat → Nat → Nat → Nat → List timespec → Option write_result
  | 0, _, _, _, _ => none
  | fuel + 1, i, bwrite, retries, sleeps =>
    if !interrupted i && bwrite == 0 then
      let n := (sendto i).n
      if n < 0 then
        let error := (sendto i).errno
        if error = EINTR ∨ error = EAGAIN ∨ error = EWOULDBLOCK then
          let retries := retries + 1
          if retries ≤ READ_RETRY_TIMES then
            let ts : timespec := { tv_sec := 0, tv_nsec := READ_RETRY_MS * 1000 }
            nlldpd_nonblock_write_loop interrupted sendto fuel (i + 1) bwrite retries
              (sleeps ++ [ts])
          else
            some { ret := false, bytes_written := 0, sendto_calls := i + 1, sleeps := sleeps,
                   errors := [] }
        else
          some { ret := false, bytes_written := 0, sendto_calls := i + 1, sleeps := sleeps,
                 errors := ["unable send packet"] }
      else
        nlldpd_nonblock_write_loop interrupted sendto fuel (i + 1) n.toNat retries sleeps
    else
      some { ret := true, bytes_written := bwrite, sendto_calls := i, sleeps := sleeps,
             errors := [] }

/-- The function `nlldpd_nonblock_write`: `bwrite = 0`, `retries = 0`, then the loop. -/
def nlldpd_nonblock_write (interrupted : Nat → Bool) (sendto : Nat → sendto_result)
    (fuel : Nat) : Option write_result :=
  nlldpd_nonblock_write_loop interrupted sendto fuel 0 0 0 []

/-- The end of the loop body of `nlldpd_loop` for a frame of `len` bytes: the lines given to
`NDM_LOG_ERROR` by the send and by the test
`!nlldpd_nonblock_write(...) || len != bytes_written`. -/
def nlldpd_loop_send (len : Nat) (interrupted : Nat → Bool) (sendto : Nat → sendto_result)
    (fuel : Nat) : Option (List String) :=
  (nlldpd_nonblock_write interrupted sendto fuel).map fun w =>
    w.errors ++ (if !w.ret || len != w.bytes_written then ["unable to send LLDPDU"] else [])

/-- The number of calls of `sendto` that return 0 among the `k` calls from call `i` on. -/
def zero_sends (sendto : Nat → sendto_result) : Nat → Nat → Nat
  | _, 0 => 0
  | i, k + 1 => (if (sendto i).n = 0 then 1 else 0) + zero_sends sendto (i + 1) k

/-- A call of `sendto` fails with one of the three errors the loop retries on. -/
def transient (r : sendto_result) : Prop :=
  r.n < 0 ∧ (r.errno = EINTR ∨ r.errno = EAGAIN ∨ r.errno = EWOULDBLOCK)

instance (r : sendto_result) : Decidable (transient r) := by
  unfold transient; infer_instance

/-! ## Socket setup and the exit status -/

/-- The answers of the system during the setup of the socket: the values returned by
`socket`, by the two calls of `fcntl` and by `bind`. -/
structure setup_env where
  socket : Int
  fcntl_getfl : Int
  fcntl_setfl : Int
  bind : Int
deriving DecidableEq, Repr

/-- What `nlldpd_main` does: the lines given to `NDM_LOG_ERROR` during setup, whether
`nlldpd_loop` is entered, and whether `close(fd_send)` is called at `cleanup`. -/
structure main_result where
  errors : List String
  loop_entered : Bool
  closed : Bool
deriving DecidableEq, Repr

/-- The function `nlldpd_set_nonblock`, with its error line. -/
def nlldpd_set_nonblock (e : setup_env) : Bool × List String :=
  if e.fcntl_getfl = -1 then (false, ["unable to get socket flags"])
  else if e.fcntl_setfl = -1 then (false, ["unable to set socket flags"])
  else (true, [])

/-- The function `nlldpd_main`; the lines logged inside `nlldpd_loop` are left out. -/
def nlldpd_main (e : setup_env) : main_result :=
  let fd_send := e.socket
  if fd_send = -1 then
    { errors := ["unable to open send socket"], loop_entered := false,
      closed := decide (fd_send ≠ -1) }
  else if !(nlldpd_set_nonblock e).1 then
    { errors := (nlldpd_set_nonblock e).2, loop_entered := false,
      closed := decide (fd_send ≠ -1) }
  else if e.bind < 0 then
    { errors := ["unable to bind send socket"], loop_entered := false,
      closed := decide (fd_send ≠ -1) }
  else
    { errors := [], loop_entered := true, closed := decide (fd_send ≠ -1) }

/-- The end of `main`, behind the option loop: the three initialisations of libndm, given
by their results, then `nlldpd_main()` and `return EXIT_SUCCESS`.  The value is the status
`main` returns with; behind `nlldpd_main` that is when `nlldpd_main` has returned. -/
def main_exit_status (log_init sys_init default_signals : Bool) (e : setup_env) : Nat :=
  let ret_code := EXIT_FAILURE
  if !log_init then ret_code
  else if !sys_init then ret_code
  else if !default_signals then ret_code
  else
    let _ := nlldpd_main e
    EXIT_SUCCESS

/-! ## Concrete configurations -/

/-- A private router on `br0`: address `10.0.0.1`, interface index 7, HTTP port 8080. -/
def privateCfg : Config :=
  { debug := false, seclvl := "private", mode := "router",
    mac := ⟨0x00, 0x11, 0x22, 0x33, 0x44, 0x55⟩,
    interface_id := [0x62, 0x72, 0x30], interface_idx := 7,
    system_name := [0x4b], port_description := [], description := [0x61, 0x62],
    ipv4_address := ⟨10, 0, 0, 1⟩, port := 8080, is_bridge := true, is_wlan_ap := false }

/-- The same device announced at the public level. -/
def publicCfg : Config := { privateCfg with seclvl := "public" }

/-- A public configuration whose port description and system name are 511 bytes each, the
most their TLVs can hold. -/
def longCfg : Config :=
  { debug := false, seclvl := "public", mode := "router",
    mac := ⟨0x00, 0x11, 0x22, 0x33, 0x44, 0x55⟩,
    interface_id := [0x62, 0x72, 0x30], interface_idx := 7,
    system_name := List.replicate 511 0x61, port_description := List.replicate 511 0x61,
    description := [], ipv4_address := ⟨0, 0, 0, 0⟩, port := 0, is_bridge := false,
    is_wlan_ap := false }

/-- The private router of `privateCfg` with a mode the program does not know. -/
def odd_modeCfg : Config := { privateCfg with mode := "bridge" }

/-- The private router of `privateCfg` with a port description and a system name of 511
bytes each. -/
def long_privateCfg : Config :=
  { privateCfg with
    port_description := List.replicate 511 0x61, system_name := List.replicate 511 0x61 }

/-- The private router of `long_privateCfg` with a mode the program does not know. -/
def long_odd_modeCfg : Config := { long_privateCfg with mode := "bridge" }

/-- The public device of `publicCfg` with a port description of 600 bytes, more than the
512 bytes of `tlv.u.data`. -/
def wide_descriptionCfg : Config :=
  { publicCfg with port_description := List.replicate 600 0x63 }

/-- The public device of `publicCfg` with an interface name of 600 bytes, more than the
511 bytes of `tlv.u.sub.data`. -/
def wide_interfaceCfg : Config :=
  { publicCfg with interface_id := List.replicate 600 0x63 }

/-- A system description of 512 bytes without a NUL: read as TLVs, a Management Address TLV
for `10.1.1.1`, a System Mode TLV with code 2, an HTTP Port TLV for port 8080 and a TLV of
type 4 that takes the 481 bytes left. -/
def crafted_description : List Nat :=
  [0x10, 0x0c, 5, 1, 10, 1, 1, 1, 2, 1, 1, 1, 7, 1] ++
  [0xfe, 0x05, 0xce, 0x1e, 0xe7, 0x01, 0x02] ++
  [0xfe, 0x06, 0xce, 0x1e, 0xe7, 0x02, 0x1f, 0x90] ++
  [0x09, 0xe1] ++ List.replicate 481 0x61

/-- The public device of `publicCfg` with `crafted_description` as its system description;
every write of the pass stays inside its buffer and the frame has 560 bytes. -/
def craftedCfg : Config := { publicCfg with description := crafted_description }

/-- The TLVs the walk finds in the frame of `craftedCfg`. -/
def crafted_tlvs : List (Nat × List Nat) :=
  [(1, [4, 0x00, 0x11, 0x22, 0x33, 0x44, 0x55]), (2, [5, 0x62, 0x72, 0x30]), (3, [0, 120]),
    (4, []), (5, [0x4b]), (7, []),
    (8, [5, 1, 10, 1, 1, 1, 2, 1, 1, 1, 7, 1]),
    (127, [0xce, 0x1e, 0xe7, 0x01, 0x02]),
    (127, [0xce, 0x1e, 0xe7, 0x02, 0x1f, 0x90]),
    (4, List.replicate 481 0x61),
    (7, [0, 20, 0, 20]), (0, [])]

/-- No interruption at any test. -/
def never_interrupted : Nat → Bool := fun _ => false

/-- Interruption raised before the first test. -/
def always_interrupted : Nat → Bool := fun _ => true

/-- Interruption raised during the first backoff: test 0 passes, test 1 sees it. -/
def interrupted_after_first : Nat → Bool := fun i => decide (1 ≤ i)

/-- Every call of `sendto` fails with `EAGAIN`. -/
def always_eagain : Nat → sendto_result := fun _ => ⟨-1, EAGAIN⟩

/-- Five calls of `sendto` fail with `EAGAIN`, the sixth sends 79 bytes. -/
def five_eagain_then_79 : Nat → sendto_result :=
  fun i => if i < 5 then ⟨-1, EAGAIN⟩ else ⟨79, 0⟩

/-- One call of `sendto` fails with `EINTR`, the second sends 79 bytes. -/
def one_eintr_then_79 : Nat → sendto_result :=
  fun i => if i < 1 then ⟨-1, EINTR⟩ else ⟨79, 0⟩

/-- Every call of `sendto` returns 0. -/
def always_zero : Nat → sendto_result := fun _ => ⟨0, 0⟩

/-- The call of `socket` fails. -/
def no_socket : setup_env := { socket := -1, fcntl_getfl := 0, fcntl_setfl := 0, bind := 0 }

/-- The socket is opened as descriptor 3, `bind` fails. -/
def no_bind : setup_env := { socket := 3, fcntl_getfl := 2, fcntl_setfl := 0, bind := -1 }

/-- The socket is opened as descriptor 3 and every step of the setup succeeds. -/
def good_setup : setup_env := { socket := 3, fcntl_getfl := 2, fcntl_setfl := 0, bind := 0 }

/-! ## Vocabulary of the proofs -/

/-- The builder `b` has written the bytes `w`: the cursor stands behind them, `packet`
is whole and starts with them. -/
def written (b : builder) (w : List Nat) : Prop :=
  b.p = w.length ∧ ∃ m, b.packet = some m ∧ m.length = sizeof_packet ∧ m.take w.length = w

/-- The array `packet`, where its contents are defined, has its 1024 bytes. -/
def sized (b : builder) : Prop :=
  ∀ m, b.packet = some m → m.length = sizeof_packet

/-- The last part of `nlldpd_loop_build`: the blocks behind the three strings, up to the
End TLV. -/
def tail_blocks (c : Config) (b : builder) : builder :=
  let b := if management_gate c then management_access c b else b
  let b := capabilities c b
  let b := if c.seclvl = "private" then ndm_system_mode c b else b
  let b := if c.seclvl = "private" ∧ c.port ≠ 0 then ndm_http_port c b else b
  end_of_lldpdu b

/-! ## Lemmas on memory writes -/

theorem store_zero (buf h : List Nat) (hb : h.length ≤ buf.length) :
    store (some buf) 0 h = some (h ++ buf.drop h.length) := by
  simp [store, hb]

theorem store_after (h r v : List Nat) (n : Nat) (hn : h.length = n) (hb : v.length ≤ r.length) :
    store (some (h ++ r)) n v = some ((h ++ v) ++ r.drop v.length) := by
  subst hn
  simp [store, hb, List.drop_append]

theorem store_past (buf v : List Nat) (n : Nat) (hb : buf.length < n + v.length) :
    store (some buf) n v = none := by
  simp [store]; omega

theorem take_written (h r : List Nat) (n : Nat) (hn : h.length = n) :
    (h ++ r).take n = h := by
  subst hn
  simp

theorem take_written_more (h r : List Nat) (n k : Nat) (hn : h.length = n) :
    (h ++ r).take (n + k) = h ++ r.take k := by
  subst hn
  simp [List.take_append_eq_append_take]

theorem take_drop_zeros (n k : Nat) (h : n + k ≤ sizeof_lldp_tlv) :
    (memset_tlv.drop n).take k = List.replicate k 0 := by
  simp only [memset_tlv, List.drop_replicate, List.take_replicate]
  congr 1
  omega

theorem memset_tlv_length : memset_tlv.length = 514 :=
  List.length_replicate _ _

theorem TLV_HDR_length (t n : Nat) : (TLV_HDR t n).length = 2 := rfl

/-! ## Lemmas on the cursor and on `packet` -/

theorem memcpy_p_written (b : builder) (w src : List Nat) (n : Nat) (hw : written b w)
    (hn : n ≤ src.length) (hb : w.length + n ≤ sizeof_packet) :
    written (memcpy_p b src n) (w ++ src.take n) := by
  obtain ⟨hp, m, hm, hl, ht⟩ := hw
  have hlen : (src.take n).length = n := by simp [hn]
  refine ⟨by simp [memcpy_p, hp, hlen], ?_⟩
  refine ⟨m.take w.length ++ src.take n ++ m.drop (w.length + n), ?_, ?_, ?_⟩
  · simp only [memcpy_p, hn, if_true, hm, hp, store, hlen]
    rw [if_pos (by omega)]
  · simp [hlen, hl]; omega
  · rw [ht, List.length_append, hlen, List.append_assoc]
    exact take_written_more _ _ _ _ rfl |>.trans (by simp [hlen])

theorem memcpy_p_none (b : builder) (src : List Nat) (n : Nat) (h : b.packet = none) :
    (memcpy_p b src n).packet = none := by
  simp [memcpy_p, h, store]

theorem memcpy_p_sized (b : builder) (src : List Nat) (n : Nat) (h : sized b) :
    sized (memcpy_p b src n) := by
  intro m hm
  unfold memcpy_p at hm
  simp only at hm
  split at hm
  · cases hb : b.packet with
    | none => rw [hb] at hm; simp [store] at hm
    | some m0 =>
      have h0 := h m0 hb
      rw [hb] at hm
      simp only [store] at hm
      split at hm
      · cases hm
        simp at *
        omega
      · cases hm
  · cases hm

theorem memcpy_p_past (b : builder) (src : List Nat) (n : Nat) (h : sized b)
    (hb : sizeof_packet < b.p + n) : (memcpy_p b src n).packet = none := by
  unfold memcpy_p
  simp only
  split
  · rename_i hn
    cases hp : b.packet with
    | none => rfl
    | some m =>
      have := h m hp
      exact store_past _ _ _ (by simp [hn]; omega)
  · rfl

theorem TLV_ADD_written (b : builder) (w t chunk : List Nat) (len : Nat) (hw : written b w)
    (ht : t.take (len + 2) = chunk) (hc : chunk.length = len + 2)
    (hb : w.length + (len + 2) ≤ sizeof_packet) :
    written (TLV_ADD b (some t) len) (w ++ chunk) := by
  have hn : len + 2 ≤ t.length := by
    rw [← ht, List.length_take] at hc; omega
  have h := memcpy_p_written b w t (len + 2) hw hn hb
  rw [ht] at h
  exact h

theorem TLV_ADD_chunk (b : builder) (w chunk r : List Nat) (len : Nat) (hw : written b w)
    (hc : chunk.length = len + 2) (hb : w.length + (len + 2) ≤ sizeof_packet) :
    written (TLV_ADD b (some (chunk ++ r)) len) (w ++ chunk) :=
  TLV_ADD_written b w _ _ len hw (take_written _ _ _ hc) hc hb

theorem TLV_ADD_none (b : builder) (tlv : Option (List Nat)) (len : Nat) (h : b.packet = none) :
    (TLV_ADD b tlv len).packet = none := by
  unfold TLV_ADD
  cases tlv with
  | none => rfl
  | some t => exact memcpy_p_none b t _ h

theorem TLV_ADD_sized (b : builder) (tlv : Option (List Nat)) (len : Nat) (h : sized b) :
    sized (TLV_ADD b tlv len) := by
  unfold TLV_ADD
  cases tlv with
  | none => intro m hm; cases hm
  | some t => exact memcpy_p_sized b t _ h

/-! ## Lemmas on the blocks -/

theorem ethernet_header_written (c : Config) (b : builder) (w : List Nat) (hw : written b w)
    (hb : w.length + 14 ≤ sizeof_packet) :
    written (ethernet_header c b) (w ++ (dst_mac c ++ c.mac.sa_data ++ [0x88, 0xcc])) := by
  have hd : (dst_mac c).length = 6 := by unfold dst_mac; split <;> rfl
  have h1 := memcpy_p_written b w (dst_mac c) ETHER_ADDR_LEN hw (by simp [hd, ETHER_ADDR_LEN])
    (by simp only [ETHER_ADDR_LEN]; omega)
  have e1 : (dst_mac c).take ETHER_ADDR_LEN = dst_mac c :=
    List.take_of_length_le (by simp [hd, ETHER_ADDR_LEN])
  rw [e1] at h1
  have h2 := memcpy_p_written _ _ c.mac.sa_data ETHER_ADDR_LEN h1
    (by simp [ndm_mac_addr_t.sa_data, ETHER_ADDR_LEN])
    (by simp only [ETHER_ADDR_LEN, List.length_append, hd]; omega)
  have e2 : c.mac.sa_data.take ETHER_ADDR_LEN = c.mac.sa_data := rfl
  rw [e2] at h2
  have h3 := memcpy_p_written _ _ (htons ETH_P_LLDP) 2 h2 (by simp [htons])
    (by simp only [List.length_append, hd, ndm_mac_addr_t.sa_data, List.length_cons,
      List.length_nil]; omega)
  have e3 : (htons ETH_P_LLDP).take 2 = [0x88, 0xcc] := rfl
  rw [e3] at h3
  simpa [ethernet_header, List.append_assoc] using h3

theorem chassis_id_written (c : Config) (b : builder) (w : List Nat) (hw : written b w)
    (hb : w.length + 9 ≤ sizeof_packet) :
    written (chassis_id c b) (w ++ tlv_bytes (1, 4 :: c.mac.sa_data)) := by
  unfold chassis_id
  simp only []
  rw [store_zero _ _ (by simp [memset_tlv_length, TLV_HDR_length]),
    store_after _ _ _ 2 (TLV_HDR_length _ _) (by simp [memset_tlv_length, TLV_HDR_length]),
    store_after _ _ _ 3 (by simp [TLV_HDR_length])
      (by simp [memset_tlv_length, TLV_HDR_length, ndm_mac_addr_t.sa_data, ETHER_ADDR_LEN])]
  refine TLV_ADD_written b w _ _ 7 hw (take_written _ _ _ ?_) ?_ hb
  · simp [TLV_HDR_length, ndm_mac_addr_t.sa_data, ETHER_ADDR_LEN]
  · simp [tlv_bytes, TLV_HDR_length, ndm_mac_addr_t.sa_data]

theorem port_id_written (c : Config) (b : builder) (w : List Nat) (hw : written b w)
    (hs : c.interface_id.length ≤ 511)
    (hb : w.length + (c.interface_id.length + 3) ≤ sizeof_packet) :
    written (port_id c b) (w ++ tlv_bytes (2, 5 :: c.interface_id)) := by
  unfold port_id
  simp only []
  rw [store_zero _ _ (by simp [memset_tlv_length, TLV_HDR_length]),
    store_after _ _ _ 2 (TLV_HDR_length _ _) (by simp [memset_tlv_length, TLV_HDR_length]),
    store_after _ _ _ 3 (by simp [TLV_HDR_length])
      (by simp [memset_tlv_length, TLV_HDR_length]; omega)]
  have e : tlv_bytes (2, 5 :: c.interface_id) =
      TLV_HDR 2 (1 + c.interface_id.length) ++ [5] ++
        List.take c.interface_id.length c.interface_id := by
    simp [tlv_bytes, Nat.add_comm]
  rw [e]
  exact TLV_ADD_chunk b w _ _ _ hw
    (by simp only [List.length_append, TLV_HDR_length, List.length_take, List.length_cons,
      List.length_nil]; omega) (by omega)

theorem port_id_past (c : Config) (b : builder) (hs : 511 < c.interface_id.length) :
    (port_id c b).packet = none := by
  unfold port_id
  simp only []
  rw [store_zero _ _ (by simp [memset_tlv_length, TLV_HDR_length]),
    store_after _ _ _ 2 (TLV_HDR_length _ _) (by simp [memset_tlv_length, TLV_HDR_length]),
    store_past _ _ _ (by simp [memset_tlv_length, TLV_HDR_length]; omega)]
  rfl

theorem ttl_written (b : builder) (w : List Nat) (hw : written b w)
    (hb : w.length + 4 ≤ sizeof_packet) :
    written (ttl b) (w ++ tlv_bytes (3, htons SEND_TTL)) := by
  unfold ttl
  simp only []
  rw [store_zero _ _ (by simp [memset_tlv_length, TLV_HDR_length]),
    store_after _ _ _ 2 (TLV_HDR_length _ _)
      (by simp [memset_tlv_length, TLV_HDR_length, htons])]
  refine TLV_ADD_written b w _ _ 2 hw (take_written _ _ _ ?_) ?_ hb
  · simp [TLV_HDR_length, htons]
  · simp [tlv_bytes, TLV_HDR_length, htons]

theorem string_tlv_written (t : Nat) (s : List Nat) (b : builder) (w : List Nat)
    (hw : written b w) (hs : s.length ≤ 512) (hb : w.length + (s.length + 2) ≤ sizeof_packet) :
    written (string_tlv t s b) (w ++ tlv_bytes (t, s)) := by
  unfold string_tlv
  simp only []
  rw [store_zero _ _ (by simp [memset_tlv_length, TLV_HDR_length]),
    store_after _ _ _ 2 (TLV_HDR_length _ _)
      (by simp [memset_tlv_length, TLV_HDR_length]; omega)]
  have e : tlv_bytes (t, s) = TLV_HDR t s.length ++ List.take s.length s := by
    simp [tlv_bytes]
  rw [e]
  exact TLV_ADD_chunk b w _ _ _ hw
    (by simp only [List.length_append, TLV_HDR_length, List.length_take]; omega) hb

theorem string_tlv_past (t : Nat) (s : List Nat) (b : builder) (hs : 512 < s.length) :
    (string_tlv t s b).packet = none := by
  unfold string_tlv
  simp only []
  rw [store_zero _ _ (by simp [memset_tlv_length, TLV_HDR_length]),
    store_past _ _ _ (by simp [memset_tlv_length, TLV_HDR_length]; omega)]
  rfl

theorem management_access_written (c : Config) (b : builder) (w : List Nat)
    (hw : written b w) (hb : w.length + 14 ≤ sizeof_packet) :
    written (management_access c b) (w ++ tlv_bytes (8, management_value c)) := by
  unfold management_access
  simp only []
  rw [store_zero _ _ (by simp [memset_tlv_length, TLV_HDR_length]),
    store_after _ _ _ _ (TLV_HDR_length _ _) (by simp [memset_tlv_length, TLV_HDR_length]),
    store_after _ _ _ _ (by simp [TLV_HDR_length])
      (by simp [memset_tlv_length, TLV_HDR_length]),
    store_after _ _ _ _ (by simp [TLV_HDR_length])
      (by simp [memset_tlv_length, TLV_HDR_length, ndm_ip_sockaddr_t.s_addr]),
    store_after _ _ _ _ (by simp [TLV_HDR_length, ndm_ip_sockaddr_t.s_addr])
      (by simp [memset_tlv_length, TLV_HDR_length, ndm_ip_sockaddr_t.s_addr]),
    store_after _ _ _ _ (by simp [TLV_HDR_length, ndm_ip_sockaddr_t.s_addr])
      (by simp [memset_tlv_length, TLV_HDR_length, ndm_ip_sockaddr_t.s_addr, htonl])]
  have hz : (memset_tlv.drop 13).take 1 = [0] := take_drop_zeros 13 1 (by decide)
  refine TLV_ADD_written b w _ _ 12 hw
    (take_written_more _ _ 13 1 (by simp [TLV_HDR_length, ndm_ip_sockaddr_t.s_addr, htonl])) ?_ hb
  · simp only [List.drop_drop, List.length_cons, List.length_nil, TLV_HDR_length, htonl,
      ndm_ip_sockaddr_t.s_addr, Nat.reduceAdd, hz, List.append_assoc, List.cons_append,
      List.nil_append, tlv_bytes, management_value, List.length_append]

theorem capabilities_written (c : Config) (b : builder) (w : List Nat) (hw : written b w)
    (hb : w.length + 6 ≤ sizeof_packet) :
    written (capabilities c b) (w ++ tlv_bytes (7, htons (caps c) ++ htons (caps c))) := by
  unfold capabilities
  simp only []
  rw [store_zero _ _ (by simp [memset_tlv_length, TLV_HDR_length]),
    store_after _ _ _ _ (TLV_HDR_length _ _)
      (by simp [memset_tlv_length, TLV_HDR_length, htons]),
    store_after _ _ _ _ (by simp [TLV_HDR_length, htons])
      (by simp [memset_tlv_length, TLV_HDR_length, htons])]
  have e : tlv_bytes (7, htons (caps c) ++ htons (caps c)) =
      TLV_HDR 7 4 ++ htons (caps c) ++ htons (caps c) := by
    simp [tlv_bytes, htons]
  rw [e]
  exact TLV_ADD_chunk b w _ _ _ hw (by simp [TLV_HDR_length, htons]) hb

theorem ndm_system_mode_written (c : Config) (b : builder) (w : List Nat) (hw : written b w)
    (hb : w.length + 7 ≤ sizeof_packet) :
    written (ndm_system_mode c b)
      (w ++ tlv_bytes (127, [0xce, 0x1e, 0xe7, 1, mval c % 256])) := by
  unfold ndm_system_mode
  simp only []
  rw [store_zero _ _ (by simp [memset_tlv_length, TLV_HDR_length]),
    store_after _ _ _ _ (TLV_HDR_length _ _) (by simp [memset_tlv_length, TLV_HDR_length]),
    store_after _ _ _ _ (by simp [TLV_HDR_length])
      (by simp [memset_tlv_length, TLV_HDR_length]),
    store_after _ _ _ _ (by simp [TLV_HDR_length])
      (by simp [memset_tlv_length, TLV_HDR_length]),
    store_after _ _ _ _ (by simp [TLV_HDR_length])
      (by simp [memset_tlv_length, TLV_HDR_length]),
    store_after _ _ _ _ (by simp [TLV_HDR_length])
      (by simp [memset_tlv_length, TLV_HDR_length])]
  have e : tlv_bytes (127, [0xce, 0x1e, 0xe7, 1, mval c % 256]) =
      TLV_HDR 127 5 ++ [0xce] ++ [0x1e] ++ [0xe7] ++ [1] ++ [mval c % 256] := by
    simp [tlv_bytes]
  rw [e]
  exact TLV_ADD_chunk b w _ _ _ hw (by simp [TLV_HDR_length]) hb

theorem ndm_http_port_written (c : Config) (b : builder) (w : List Nat) (hw : written b w)
    (hb : w.length + 8 ≤ sizeof_packet) :
    written (ndm_http_port c b) (w ++ tlv_bytes (127, [0xce, 0x1e, 0xe7, 2] ++ htons c.port)) := by
  unfold ndm_http_port
  simp only []
  rw [store_zero _ _ (by simp [memset_tlv_length, TLV_HDR_length]),
    store_after _ _ _ _ (TLV_HDR_length _ _) (by simp [memset_tlv_length, TLV_HDR_length]),
    store_after _ _ _ _ (by simp [TLV_HDR_length])
      (by simp [memset_tlv_length, TLV_HDR_length]),
    store_after _ _ _ _ (by simp [TLV_HDR_length])
      (by simp [memset_tlv_length, TLV_HDR_length]),
    store_after _ _ _ _ (by simp [TLV_HDR_length])
      (by simp [memset_tlv_length, TLV_HDR_length]),
    store_after _ _ _ _ (by simp [TLV_HDR_length])
      (by simp [memset_tlv_length, TLV_HDR_length, htons])]
  have e : tlv_bytes (127, [0xce, 0x1e, 0xe7, 2] ++ htons c.port) =
      TLV_HDR 127 6 ++ [0xce] ++ [0x1e] ++ [0xe7] ++ [2] ++ htons c.port := by
    simp [tlv_bytes, htons]
  rw [e]
  exact TLV_ADD_chunk b w _ _ _ hw (by simp [TLV_HDR_length, htons]) hb

theorem end_of_lldpdu_written (b : builder) (w : List Nat) (hw : written b w)
    (hb : w.length + 2 ≤ sizeof_packet) :
    written (end_of_lldpdu b) (w ++ tlv_bytes (0, [])) := by
  have h := memcpy_p_written b w memset_tlv 2 hw (by rw [memset_tlv_length]; decide) hb
  have hz : memset_tlv.take 2 = [0, 0] := take_drop_zeros 0 2 (by decide)
  rw [hz] at h
  exact h

/-! ## The cursor -/

theorem dst_mac_length (c : Config) : (dst_mac c).length = 6 := by
  unfold dst_mac; split <;> rfl

theorem loop_len_eq (c : Config) :
    nlldpd_loop_len c =
      14 + 9 + (3 + c.interface_id.length) + 4 + (2 + c.port_description.length) +
        (2 + c.system_name.length) + (2 + c.description.length) +
        (if management_gate c then 2 + 12 else 0) + 6 +
        (if c.seclvl = "private" then 7 else 0) +
        (if c.seclvl = "private" ∧ c.port ≠ 0 then 8 else 0) + 2 := by
  have h0 : memset_packet.p = 0 := rfl
  have h1 : ∀ b, (ethernet_header c b).p = b.p + 6 + 6 + 2 := fun _ => rfl
  have h2 : ∀ b, (chassis_id c b).p = b.p + (7 + 2) := fun _ => rfl
  have h3 : ∀ b, (port_id c b).p = b.p + (1 + c.interface_id.length + 2) := fun _ => rfl
  have h4 : ∀ b, (ttl b).p = b.p + (2 + 2) := fun _ => rfl
  have h5 : ∀ t s b, (string_tlv t s b).p = b.p + (s.length + 2) := fun _ _ _ => rfl
  have h6 : ∀ b, (management_access c b).p = b.p + (12 + 2) := fun _ => rfl
  have h7 : ∀ b, (capabilities c b).p = b.p + (4 + 2) := fun _ => rfl
  have h8 : ∀ b, (ndm_system_mode c b).p = b.p + (5 + 2) := fun _ => rfl
  have h9 : ∀ b, (ndm_http_port c b).p = b.p + (6 + 2) := fun _ => rfl
  have h10 : ∀ b, (end_of_lldpdu b).p = b.p + 2 := fun _ => rfl
  unfold nlldpd_loop_len nlldpd_loop_build
  simp only []
  split_ifs <;> simp only [h0, h1, h2, h3, h4, h5, h6, h7, h8, h9, h10] <;> omega

/-! ## The frame of an in-bounds pass -/

theorem tlv_bytes_length (x : Nat × List Nat) : (tlv_bytes x).length = 2 + x.2.length := by
  simp [tlv_bytes, TLV_HDR_length, Nat.add_comm]

theorem written_ite (g : Prop) [Decidable g] (f : builder → builder) (b : builder)
    (w chunk : List Nat) (hw : written b w) (hf : g → written (f b) (w ++ chunk)) :
    written (if g then f b else b) (w ++ (if g then chunk else [])) := by
  split
  · rename_i h; exact hf h
  · simpa using hw

theorem frame_bytes_length (c : Config) :
    (frame_bytes c).length =
      14 + 9 + (3 + c.interface_id.length) + 4 + (2 + c.port_description.length) +
        (2 + c.system_name.length) + (2 + c.description.length) +
        (if management_gate c then 2 + 12 else 0) + 6 +
        (if c.seclvl = "private" then 7 else 0) +
        (if c.seclvl = "private" ∧ c.port ≠ 0 then 8 else 0) + 2 := by
  unfold frame_bytes written_tlvs
  split_ifs <;>
    simp [tlv_bytes, TLV_HDR_length, dst_mac_length, htons, htonl, management_value,
      ndm_mac_addr_t.sa_data, ndm_ip_sockaddr_t.s_addr] <;>
    omega

theorem loop_len_eq_length (c : Config) : nlldpd_loop_len c = (frame_bytes c).length := by
  rw [loop_len_eq, frame_bytes_length]

theorem build_written (c : Config) (hb : c.in_bounds) :
    written (nlldpd_loop_build c) (frame_bytes c) := by
  obtain ⟨hi, h4, h5, h6, hlen⟩ := hb
  rw [loop_len_eq] at hlen
  have hm : (management_value c).length = 12 := by
    simp [management_value, htonl, ndm_ip_sockaddr_t.s_addr]
  have s0 : written memset_packet [] :=
    ⟨rfl, _, rfl, List.length_replicate _ _, rfl⟩
  have s1 := ethernet_header_written c _ _ s0 (by simp [sizeof_packet])
  have s2 := chassis_id_written c _ _ s1
    (by simp [dst_mac_length, ndm_mac_addr_t.sa_data, sizeof_packet])
  have s3 := port_id_written c _ _ s2 hi
    (by simp [dst_mac_length, ndm_mac_addr_t.sa_data, tlv_bytes_length, sizeof_packet] at hlen ⊢
        split_ifs at hlen <;> omega)
  have s4 := ttl_written _ _ s3
    (by simp [dst_mac_length, ndm_mac_addr_t.sa_data, tlv_bytes_length, sizeof_packet] at hlen ⊢
        split_ifs at hlen <;> omega)
  have s5 := string_tlv_written 4 c.port_description _ _ s4 h4
    (by simp [dst_mac_length, ndm_mac_addr_t.sa_data, tlv_bytes_length, sizeof_packet, htons]
          at hlen ⊢
        split_ifs at hlen <;> omega)
  have s6 := string_tlv_written 5 c.system_name _ _ s5 h5
    (by simp [dst_mac_length, ndm_mac_addr_t.sa_data, tlv_bytes_length, sizeof_packet, htons]
          at hlen ⊢
        split_ifs at hlen <;> omega)
  have s7 := string_tlv_written 6 c.description _ _ s6 h6
    (by simp [dst_mac_length, ndm_mac_addr_t.sa_data, tlv_bytes_length, sizeof_packet, htons]
          at hlen ⊢
        split_ifs at hlen <;> omega)
  have s8 := written_ite (management_gate c = true) (management_access c) _ _
    (tlv_bytes (8, management_value c)) s7 (fun hg => management_access_written c _ _ s7
      (by simp [dst_mac_length, ndm_mac_addr_t.sa_data, tlv_bytes_length, sizeof_packet, htons,
            hg] at hlen ⊢
          split_ifs at hlen <;> omega))
  have s9 := capabilities_written c _ _ s8
    (by simp only [List.length_append, apply_ite List.length, List.length_nil, tlv_bytes_length,
          dst_mac_length, ndm_mac_addr_t.sa_data, List.length_cons, htons, hm, sizeof_packet]
          at hlen ⊢
        split_ifs at hlen ⊢ <;> omega)
  have s10 := written_ite (c.seclvl = "private") (ndm_system_mode c) _ _
    (tlv_bytes (127, [0xce, 0x1e, 0xe7, 1, mval c % 256])) s9
    (fun hp => ndm_system_mode_written c _ _ s9
      (by simp only [List.length_append, apply_ite List.length, List.length_nil,
            tlv_bytes_length, dst_mac_length, ndm_mac_addr_t.sa_data, List.length_cons, htons,
            hm, sizeof_packet, hp, true_and, if_true] at hlen ⊢
          split_ifs at hlen ⊢ <;> omega))
  have s11 := written_ite (c.seclvl = "private" ∧ c.port ≠ 0) (ndm_http_port c) _ _
    (tlv_bytes (127, [0xce, 0x1e, 0xe7, 2] ++ htons c.port)) s10
    (fun hq => ndm_http_port_written c _ _ s10
      (by simp only [List.length_append, apply_ite List.length, List.length_nil,
            tlv_bytes_length, dst_mac_length, ndm_mac_addr_t.sa_data, List.length_cons, htons,
            hm, sizeof_packet, hq, hq.1, true_and, if_true, and_self] at hlen ⊢
          split_ifs at hlen ⊢ <;> omega))
  have s12 := end_of_lldpdu_written _ _ s11
    (by simp only [List.length_append, apply_ite List.length, List.length_nil,
          tlv_bytes_length, dst_mac_length, ndm_mac_addr_t.sa_data, List.length_cons, htons,
          hm, sizeof_packet] at hlen ⊢
        split_ifs at hlen ⊢ <;> omega)
  have e : frame_bytes c =
      [] ++ (dst_mac c ++ c.mac.sa_data ++ [0x88, 0xcc]) ++
        tlv_bytes (1, 4 :: c.mac.sa_data) ++ tlv_bytes (2, 5 :: c.interface_id) ++
        tlv_bytes (3, htons SEND_TTL) ++ tlv_bytes (4, c.port_description) ++
        tlv_bytes (5, c.system_name) ++ tlv_bytes (6, c.description) ++
        (if management_gate c = true then tlv_bytes (8, management_value c) else []) ++
        tlv_bytes (7, htons (caps c) ++ htons (caps c)) ++
        (if c.seclvl = "private" then tlv_bytes (127, [0xce, 0x1e, 0xe7, 1, mval c % 256])
          else []) ++
        (if c.seclvl = "private" ∧ c.port ≠ 0 then
          tlv_bytes (127, [0xce, 0x1e, 0xe7, 2] ++ htons c.port) else []) ++
        tlv_bytes (0, []) := by
    unfold frame_bytes written_tlvs
    split_ifs <;> simp
  rw [e]
  exact s12

theorem packet_of_in_bounds (c : Config) (hb : c.in_bounds) :
    nlldpd_loop_packet c = some (frame_bytes c) := by
  obtain ⟨-, m, hm, -, ht⟩ := build_written c hb
  unfold nlldpd_loop_packet
  rw [hm, loop_len_eq_length, Option.map_some', ht]

/-! ## A pass that leaves its buffers -/

theorem build_eq_tail (c : Config) :
    nlldpd_loop_build c =
      tail_blocks c (string_tlv 6 c.description (string_tlv 5 c.system_name
        (string_tlv 4 c.port_description (ttl (port_id c (chassis_id c
          (ethernet_header c memset_packet))))))) := rfl

theorem chassis_id_keeps (c : Config) (b : builder) :
    (b.packet = none → (chassis_id c b).packet = none) ∧ (sized b → sized (chassis_id c b)) := by
  unfold chassis_id
  exact ⟨TLV_ADD_none _ _ _, TLV_ADD_sized _ _ _⟩

theorem port_id_keeps (c : Config) (b : builder) :
    (b.packet = none → (port_id c b).packet = none) ∧ (sized b → sized (port_id c b)) := by
  unfold port_id
  exact ⟨TLV_ADD_none _ _ _, TLV_ADD_sized _ _ _⟩

theorem ttl_keeps (b : builder) :
    (b.packet = none → (ttl b).packet = none) ∧ (sized b → sized (ttl b)) := by
  unfold ttl
  exact ⟨TLV_ADD_none _ _ _, TLV_ADD_sized _ _ _⟩

theorem string_tlv_keeps (t : Nat) (s : List Nat) (b : builder) :
    (b.packet = none → (string_tlv t s b).packet = none) ∧
      (sized b → sized (string_tlv t s b)) := by
  unfold string_tlv
  exact ⟨TLV_ADD_none _ _ _, TLV_ADD_sized _ _ _⟩

theorem management_access_keeps (c : Config) (b : builder) :
    (b.packet = none → (management_access c b).packet = none) ∧
      (sized b → sized (management_access c b)) := by
  unfold management_access
  exact ⟨TLV_ADD_none _ _ _, TLV_ADD_sized _ _ _⟩

theorem capabilities_keeps (c : Config) (b : builder) :
    (b.packet = none → (capabilities c b).packet = none) ∧
      (sized b → sized (capabilities c b)) := by
  unfold capabilities
  exact ⟨TLV_ADD_none _ _ _, TLV_ADD_sized _ _ _⟩

theorem ndm_system_mode_keeps (c : Config) (b : builder) :
    (b.packet = none → (ndm_system_mode c b).packet = none) ∧
      (sized b → sized (ndm_system_mode c b)) := by
  unfold ndm_system_mode
  exact ⟨TLV_ADD_none _ _ _, TLV_ADD_sized _ _ _⟩

theorem ndm_http_port_keeps (c : Config) (b : builder) :
    (b.packet = none → (ndm_http_port c b).packet = none) ∧
      (sized b → sized (ndm_http_port c b)) := by
  unfold ndm_http_port
  exact ⟨TLV_ADD_none _ _ _, TLV_ADD_sized _ _ _⟩

theorem ethernet_header_sized (c : Config) (b : builder) (h : sized b) :
    sized (ethernet_header c b) := by
  unfold ethernet_header
  exact memcpy_p_sized _ _ _ (memcpy_p_sized _ _ _ (memcpy_p_sized _ _ _ h))

theorem ite_keeps (g : Prop) [Decidable g] (f : builder → builder) (b : builder)
    (hf : (b.packet = none → (f b).packet = none) ∧ (sized b → sized (f b))) :
    (b.packet = none → (if g then f b else b).packet = none) ∧
      (sized b → sized (if g then f b else b)) := by
  split
  · exact hf
  · exact ⟨id, id⟩

theorem tail_blocks_none (c : Config) (b : builder) (h : b.packet = none) :
    (tail_blocks c b).packet = none := by
  unfold tail_blocks end_of_lldpdu
  exact memcpy_p_none _ _ _
    ((ite_keeps _ (ndm_http_port c) _ (ndm_http_port_keeps c _)).1
      ((ite_keeps _ (ndm_system_mode c) _ (ndm_system_mode_keeps c _)).1
        ((capabilities_keeps c _).1
          ((ite_keeps _ (management_access c) _ (management_access_keeps c _)).1 h))))

theorem tail_blocks_past (c : Config) (b : builder) (hs : sized b)
    (h : sizeof_packet < (tail_blocks c b).p) : (tail_blocks c b).packet = none := by
  unfold tail_blocks end_of_lldpdu at h ⊢
  exact memcpy_p_past _ _ 2
    ((ite_keeps _ (ndm_http_port c) _ (ndm_http_port_keeps c _)).2
      ((ite_keeps _ (ndm_system_mode c) _ (ndm_system_mode_keeps c _)).2
        ((capabilities_keeps c _).2
          ((ite_keeps _ (management_access c) _ (management_access_keeps c _)).2 hs)))) h

theorem memset_packet_sized : sized memset_packet := by
  intro m hm
  unfold memset_packet at hm
  cases hm
  exact List.length_replicate _ _

theorem build_past_packet (c : Config) (h : sizeof_packet < nlldpd_loop_len c) :
    (nlldpd_loop_build c).packet = none := by
  unfold nlldpd_loop_len at h
  rw [build_eq_tail] at h ⊢
  exact tail_blocks_past c _
    ((string_tlv_keeps _ _ _).2 ((string_tlv_keeps _ _ _).2 ((string_tlv_keeps _ _ _).2
      ((ttl_keeps _).2 ((port_id_keeps c _).2 ((chassis_id_keeps c _).2
        (ethernet_header_sized c _ memset_packet_sized))))))) h

theorem packet_none_of_not_in_bounds (c : Config) (hb : ¬ c.in_bounds) :
    nlldpd_loop_packet c = none := by
  have hnone : (nlldpd_loop_build c).packet = none := by
    by_cases hi : c.interface_id.length ≤ 511
    · by_cases h4 : c.port_description.length ≤ 512
      · by_cases h5 : c.system_name.length ≤ 512
        · by_cases h6 : c.description.length ≤ 512
          · have hlen : sizeof_packet < nlldpd_loop_len c := by
              by_contra hl
              exact hb ⟨hi, h4, h5, h6, not_lt.mp hl⟩
            exact build_past_packet c hlen
          · rw [build_eq_tail]
            exact tail_blocks_none c _ (string_tlv_past _ _ _ (by omega))
        · rw [build_eq_tail]
          exact tail_blocks_none c _ ((string_tlv_keeps _ _ _).1
            (string_tlv_past _ _ _ (by omega)))
      · rw [build_eq_tail]
        exact tail_blocks_none c _ ((string_tlv_keeps _ _ _).1 ((string_tlv_keeps _ _ _).1
          (string_tlv_past _ _ _ (by omega))))
    · rw [build_eq_tail]
      exact tail_blocks_none c _ ((string_tlv_keeps _ _ _).1 ((string_tlv_keeps _ _ _).1
        ((string_tlv_keeps _ _ _).1 ((ttl_keeps _).1 (port_id_past c _ (by omega))))))
  unfold nlldpd_loop_packet
  rw [hnone]
  rfl

theorem packet_some_iff (c : Config) (frame : List Nat) :
    nlldpd_loop_packet c = some frame ↔ c.in_bounds ∧ frame = frame_bytes c := by
  constructor
  · intro h
    by_cases hb : c.in_bounds
    · rw [packet_of_in_bounds c hb] at h
      exact ⟨hb, (Option.some.inj h).symm⟩
    · rw [packet_none_of_not_in_bounds c hb] at h
      cases h
  · rintro ⟨hb, rfl⟩
    exact packet_of_in_bounds c hb

/-! ## Lemmas on the bytes of the frame -/

theorem TLV_HDR_word (t n : Nat) (ht : t ≤ 127) (hn : n ≤ 511) :
    TLV_HDR t n = [(t * 512 + n) / 256, (t * 512 + n) % 256] := by
  simp only [TLV_HDR, htons, Nat.shiftLeft_eq]
  norm_num
  omega

theorem hdr_type_eq (b0 b1 : Nat) : hdr_type b0 b1 = (b0 * 256 + b1) / 512 := by
  simp [hdr_type, Nat.shiftRight_eq_div_pow]

theorem hdr_len_eq (b0 b1 : Nat) : hdr_len b0 b1 = (b0 * 256 + b1) % 512 := by
  have h := Nat.and_pow_two_sub_one_eq_mod (b0 * 256 + b1) 9
  simpa [hdr_len] using h

theorem tlv_walk_tlv_bytes (x : Nat × List Nat) (rest : List Nat) (fuel : Nat)
    (ht : x.1 ≤ 127) (hn : x.2.length ≤ 511) :
    tlv_walk (fuel + 1) (tlv_bytes x ++ rest) =
      (tlv_walk fuel rest).map (fun l => x :: l) := by
  obtain ⟨t, v⟩ := x
  simp only at ht hn
  have hd : ((t * 512 + v.length) / 256 * 256 + (t * 512 + v.length) % 256) = t * 512 + v.length :=
    Nat.div_add_mod' _ _
  have h1 : hdr_len ((t * 512 + v.length) / 256) ((t * 512 + v.length) % 256) = v.length := by
    rw [hdr_len_eq, hd]; omega
  have h2 : hdr_type ((t * 512 + v.length) / 256) ((t * 512 + v.length) % 256) = t := by
    rw [hdr_type_eq, hd]; omega
  rw [tlv_bytes]
  simp only []
  rw [TLV_HDR_word t v.length ht hn]
  simp only [List.cons_append, List.nil_append, tlv_walk, h1, h2]
  simp

theorem tlv_walk_flatMap (l : List (Nat × List Nat)) :
    ∀ fuel : Nat, l.length ≤ fuel → (∀ x ∈ l, x.1 ≤ 127 ∧ x.2.length ≤ 511) →
      tlv_walk fuel (l.flatMap tlv_bytes) = some l := by
  induction l with
  | nil => intro fuel _ _; cases fuel <;> simp [tlv_walk]
  | cons x l ih =>
    intro fuel hf hx
    cases fuel with
    | zero => simp at hf
    | succ fuel =>
      have hx0 := hx x (List.mem_cons_self _ _)
      rw [List.flatMap_cons, tlv_walk_tlv_bytes x _ fuel hx0.1 hx0.2,
        ih fuel (by simpa using hf) (fun y hy => hx y (List.mem_cons_of_mem _ hy))]
      rfl

theorem written_tlvs_length_le (c : Config) : (written_tlvs c).length ≤ 10 := by
  unfold written_tlvs
  split <;> split <;> split <;> simp

theorem written_tlvs_fit (c : Config) (h : c.fits) :
    ∀ x ∈ written_tlvs c ++ [(0, [])], x.1 ≤ 127 ∧ x.2.length ≤ 511 := by
  obtain ⟨h1, h2, h3, h4⟩ := h
  unfold written_tlvs
  split_ifs <;>
    simp [htons, htonl, management_value, ndm_mac_addr_t.sa_data, ndm_ip_sockaddr_t.s_addr] <;>
    omega

theorem frame_bytes_length_ge (c : Config) : 27 ≤ (frame_bytes c).length := by
  rw [frame_bytes_length]
  omega

theorem frame_bytes_drop_14 (c : Config) :
    (frame_bytes c).drop 14 = (written_tlvs c ++ [(0, [])]).flatMap tlv_bytes := by
  unfold frame_bytes
  apply List.drop_left'
  simp [dst_mac_length, ndm_mac_addr_t.sa_data]

theorem frame_tlvs_eq_written (c : Config) (h : c.fits) :
    frame_tlvs (frame_bytes c) = some (written_tlvs c ++ [(0, [])]) := by
  unfold frame_tlvs
  have hlen := frame_bytes_length_ge c
  have hw := written_tlvs_length_le c
  rw [frame_bytes_drop_14]
  exact tlv_walk_flatMap _ _ (by simp; omega) (written_tlvs_fit c h)

theorem in_bounds_of_fits (c : Config) (h : c.fits) (hlen : nlldpd_loop_len c ≤ sizeof_packet) :
    c.in_bounds := by
  obtain ⟨h1, h2, h3, h4⟩ := h
  exact ⟨by omega, by omega, by omega, by omega, hlen⟩

theorem management_gate_iff (c : Config) :
    management_gate c = true ↔ c.seclvl = "private" ∧ c.ipv4_address ≠ NDM_IP_SOCKADDR_ANY := by
  simp [management_gate, ndm_ip_sockaddr_is_equal, and_comm]

theorem packet_split (c : Config) :
    ∃ front : List Nat,
      front.length = 36 + c.interface_id.length + c.port_description.length +
        c.system_name.length + c.description.length ∧
      frame_bytes c =
        front ++
        (if management_gate c then TLV_HDR 8 12 ++ management_value c else []) ++
        (TLV_HDR 7 4 ++ (htons (caps c) ++ htons (caps c))) ++
        (if c.seclvl = "private" then TLV_HDR 127 5 ++ [0xce, 0x1e, 0xe7, 1, mval c % 256]
          else []) ++
        (if c.seclvl = "private" ∧ c.port ≠ 0 then
          TLV_HDR 127 6 ++ ([0xce, 0x1e, 0xe7, 2] ++ htons c.port) else []) ++
        [0, 0] := by
  refine ⟨dst_mac c ++ c.mac.sa_data ++ [0x88, 0xcc] ++
    [(1, 4 :: c.mac.sa_data), (2, 5 :: c.interface_id), (3, htons SEND_TTL),
      (4, c.port_description), (5, c.system_name), (6, c.description)].flatMap tlv_bytes, ?_, ?_⟩
  · simp [tlv_bytes, TLV_HDR_length, dst_mac_length, htons, ndm_mac_addr_t.sa_data]
    omega
  · unfold frame_bytes written_tlvs
    have h0 : TLV_HDR 0 0 = [0, 0] := rfl
    have hm : (management_value c).length = 12 := by
      simp [management_value, htonl, ndm_ip_sockaddr_t.s_addr]
    split_ifs <;> simp [tlv_bytes, htons, h0, hm]

theorem mem_written_8 (c : Config) (v : List Nat) :
    (8, v) ∈ written_tlvs c ++ [(0, [])] ↔ management_gate c = true ∧ v = management_value c := by
  unfold written_tlvs
  split_ifs <;> simp_all

theorem mem_written_7 (c : Config) (v : List Nat) :
    (7, v) ∈ written_tlvs c ++ [(0, [])] ↔ v = htons (caps c) ++ htons (caps c) := by
  unfold written_tlvs
  split_ifs <;> simp_all

theorem mem_written_127_mode (c : Config) (v : List Nat) :
    (127, 0xce :: 0x1e :: 0xe7 :: 1 :: v) ∈ written_tlvs c ++ [(0, [])] ↔
      c.seclvl = "private" ∧ v = [mval c % 256] := by
  unfold written_tlvs
  split_ifs <;> simp_all [htons]

theorem caps_eq (c : Config) :
    caps c = (if c.is_bridge then 4 else 0) +
      (if c.mode = "router" then 16 else if c.mode = "repeater" then 2 else 0) := by
  unfold caps
  cases c.is_bridge <;> split_ifs <;> rfl

theorem mval_lt (c : Config) : mval c % 256 = mval c := by
  unfold mval
  split_ifs <;> rfl

theorem payload_front (c : Config) :
    ∃ rest : List Nat,
      (frame_bytes c).drop 14 =
        (TLV_HDR 1 7 ++ 4 :: c.mac.sa_data) ++
        (TLV_HDR 2 (1 + c.interface_id.length) ++ 5 :: c.interface_id) ++
        (TLV_HDR 3 2 ++ htons SEND_TTL) ++
        ((TLV_HDR 4 c.port_description.length ++ c.port_description) ++
          (TLV_HDR 5 c.system_name.length ++ c.system_name) ++
          (TLV_HDR 6 c.description.length ++ c.description)) ++ rest := by
  rw [frame_bytes_drop_14]
  unfold written_tlvs
  simp only [List.flatMap_append, List.flatMap_cons, List.flatMap_nil, tlv_bytes,
    List.append_nil, List.length_cons, List.append_assoc, Nat.add_comm 1]
  exact ⟨_, rfl⟩

theorem mem_written_string (c : Config) (v : List Nat) :
    ((4, v) ∈ written_tlvs c ++ [(0, [])] ↔ v = c.port_description) ∧
    ((5, v) ∈ written_tlvs c ++ [(0, [])] ↔ v = c.system_name) ∧
    ((6, v) ∈ written_tlvs c ++ [(0, [])] ↔ v = c.description) := by
  unfold written_tlvs
  refine ⟨?_, ?_, ?_⟩ <;> split_ifs <;> simp_all

theorem longCfg_len : nlldpd_loop_len longCfg = 1069 := by
  have hp : longCfg.port_description.length = 511 := List.length_replicate 511 0x61
  have hs : longCfg.system_name.length = 511 := List.length_replicate 511 0x61
  have hi : longCfg.interface_id.length = 3 := rfl
  have hd : longCfg.description.length = 0 := rfl
  have hsec : ¬ longCfg.seclvl = "private" := by decide
  have hgate : management_gate longCfg = false := by decide
  rw [loop_len_eq, hp, hs, hi, hd, hgate]
  simp only [hsec, false_and, if_false]
  rfl

theorem longCfg_fits : longCfg.fits := by
  have hp : longCfg.port_description.length = 511 := List.length_replicate 511 0x61
  have hs : longCfg.system_name.length = 511 := List.length_replicate 511 0x61
  have hi : longCfg.interface_id.length = 3 := rfl
  have hd : longCfg.description.length = 0 := rfl
  unfold Config.fits
  rw [hp, hs, hi, hd]
  decide

theorem longCfg_packet : nlldpd_loop_packet longCfg = none := by
  apply packet_none_of_not_in_bounds
  rintro ⟨-, -, -, -, h⟩
  rw [longCfg_len] at h
  exact absurd h (by decide)

theorem long_privateCfg_len : nlldpd_loop_len long_privateCfg = 1100 := by
  have hp : long_privateCfg.port_description.length = 511 := List.length_replicate 511 0x61
  have hs : long_privateCfg.system_name.length = 511 := List.length_replicate 511 0x61
  have hi : long_privateCfg.interface_id.length = 3 := rfl
  have hd : long_privateCfg.description.length = 2 := rfl
  have hsec : long_privateCfg.seclvl = "private" := rfl
  have hport : long_privateCfg.port ≠ 0 := by decide
  have hgate : management_gate long_privateCfg = true := by decide
  rw [loop_len_eq, hp, hs, hi, hd, hgate]
  simp only [hsec, hport, ne_eq, not_false_eq_true, and_self, if_true]

theorem long_privateCfg_fits : long_privateCfg.fits := by
  have hp : long_privateCfg.port_description.length = 511 := List.length_replicate 511 0x61
  have hs : long_privateCfg.system_name.length = 511 := List.length_replicate 511 0x61
  have hi : long_privateCfg.interface_id.length = 3 := rfl
  have hd : long_privateCfg.description.length = 2 := rfl
  unfold Config.fits
  rw [hp, hs, hi, hd]
  decide

theorem long_privateCfg_packet : nlldpd_loop_packet long_privateCfg = none := by
  apply packet_none_of_not_in_bounds
  rintro ⟨-, -, -, -, h⟩
  rw [long_privateCfg_len] at h
  exact absurd h (by decide)

theorem long_odd_modeCfg_packet : nlldpd_loop_packet long_odd_modeCfg = none := by
  have hp : long_odd_modeCfg.port_description.length = 511 := List.length_replicate 511 0x61
  have hs : long_odd_modeCfg.system_name.length = 511 := List.length_replicate 511 0x61
  have hi : long_odd_modeCfg.interface_id.length = 3 := rfl
  have hd : long_odd_modeCfg.description.length = 2 := rfl
  have hsec : long_odd_modeCfg.seclvl = "private" := rfl
  have hport : long_odd_modeCfg.port ≠ 0 := by decide
  have hgate : management_gate long_odd_modeCfg = true := by decide
  apply packet_none_of_not_in_bounds
  rintro ⟨-, -, -, -, h⟩
  rw [loop_len_eq, hp, hs, hi, hd, hgate] at h
  simp only [hsec, hport, ne_eq, not_false_eq_true, and_self, if_true] at h
  exact absurd h (by decide)

theorem wide_descriptionCfg_len : nlldpd_loop_len wide_descriptionCfg = 650 := by
  have hp : wide_descriptionCfg.port_description.length = 600 := List.length_replicate 600 0x63
  have hs : wide_descriptionCfg.system_name.length = 1 := rfl
  have hi : wide_descriptionCfg.interface_id.length = 3 := rfl
  have hd : wide_descriptionCfg.description.length = 2 := rfl
  have hsec : ¬ wide_descriptionCfg.seclvl = "private" := by decide
  have hgate : management_gate wide_descriptionCfg = false := by decide
  rw [loop_len_eq, hp, hs, hi, hd, hgate]
  simp only [hsec, false_and, if_false]
  rfl

theorem wide_descriptionCfg_packet : nlldpd_loop_packet wide_descriptionCfg = none := by
  have hp : wide_descriptionCfg.port_description.length = 600 := List.length_replicate 600 0x63
  apply packet_none_of_not_in_bounds
  rintro ⟨-, h, -, -, -⟩
  rw [hp] at h
  exact absurd h (by decide)

theorem wide_interfaceCfg_packet : nlldpd_loop_packet wide_interfaceCfg = none := by
  have hp : wide_interfaceCfg.interface_id.length = 600 := List.length_replicate 600 0x63
  apply packet_none_of_not_in_bounds
  rintro ⟨h, -, -, -, -⟩
  rw [hp] at h
  exact absurd h (by decide)

theorem privateCfg_in_bounds : privateCfg.in_bounds := by
  refine ⟨by decide, by decide, by decide, by decide, ?_⟩
  rw [loop_len_eq]
  decide

theorem publicCfg_in_bounds : publicCfg.in_bounds := by
  refine ⟨by decide, by decide, by decide, by decide, ?_⟩
  rw [loop_len_eq]
  decide

theorem odd_modeCfg_in_bounds : odd_modeCfg.in_bounds := by
  refine ⟨by decide, by decide, by decide, by decide, ?_⟩
  rw [loop_len_eq]
  decide

theorem crafted_description_length : crafted_description.length = 512 := by
  unfold crafted_description
  simp only [List.length_append, List.length_replicate, List.length_cons, List.length_nil]

theorem craftedCfg_len : nlldpd_loop_len craftedCfg = 560 := by
  have hp : craftedCfg.port_description.length = 0 := rfl
  have hs : craftedCfg.system_name.length = 1 := rfl
  have hi : craftedCfg.interface_id.length = 3 := rfl
  have hd : craftedCfg.description.length = 512 := crafted_description_length
  have hsec : ¬ craftedCfg.seclvl = "private" := by decide
  have hgate : management_gate craftedCfg = false := by decide
  rw [loop_len_eq, hp, hs, hi, hd, hgate]
  simp only [hsec, false_and, if_false]
  rfl

theorem craftedCfg_in_bounds : craftedCfg.in_bounds := by
  have hp : craftedCfg.port_description.length = 0 := rfl
  have hs : craftedCfg.system_name.length = 1 := rfl
  have hi : craftedCfg.interface_id.length = 3 := rfl
  have hd : craftedCfg.description.length = 512 := crafted_description_length
  unfold Config.in_bounds
  rw [hp, hs, hi, hd, craftedCfg_len]
  decide

set_option maxRecDepth 100000 in
theorem craftedCfg_frame_bytes :
    frame_bytes craftedCfg =
      [0x01, 0x80, 0xc2, 0x00, 0x00, 0x0e, 0x00, 0x11, 0x22, 0x33, 0x44, 0x55, 0x88, 0xcc] ++
        crafted_tlvs.flatMap tlv_bytes := by
  decide

theorem craftedCfg_walk :
    nlldpd_loop_packet craftedCfg = some (frame_bytes craftedCfg) ∧
      frame_tlvs (frame_bytes craftedCfg) = some crafted_tlvs := by
  refine ⟨packet_of_in_bounds _ craftedCfg_in_bounds, ?_⟩
  have hlen : (frame_bytes craftedCfg).length = 560 := by
    rw [← loop_len_eq_length, craftedCfg_len]
  unfold frame_tlvs
  rw [hlen, craftedCfg_frame_bytes, List.drop_left' (by rfl)]
  refine tlv_walk_flatMap _ _ (by decide) ?_
  intro x hx
  simp only [crafted_tlvs, List.mem_cons, List.mem_singleton, List.not_mem_nil, or_false] at hx
  rcases hx with rfl | rfl | rfl | rfl | rfl | rfl | rfl | rfl | rfl | rfl | rfl | rfl <;>
    refine ⟨by decide, ?_⟩ <;>
    simp only [List.length_cons, List.length_nil, List.length_replicate] <;> omega

theorem crafted_tlvs_types :
    crafted_tlvs.map Prod.fst = [1, 2, 3, 4, 5, 7, 8, 127, 127, 4, 7, 0] := rfl

theorem crafted_tlvs_mem :
    (7, []) ∈ crafted_tlvs ∧
    (8, [5, 1, 10, 1, 1, 1, 2, 1, 1, 1, 7, 1]) ∈ crafted_tlvs ∧
    (127, [0xce, 0x1e, 0xe7, 0x01, 0x02]) ∈ crafted_tlvs ∧
    (127, [0xce, 0x1e, 0xe7, 0x02, 0x1f, 0x90]) ∈ crafted_tlvs := by
  unfold crafted_tlvs
  refine ⟨?_, ?_, ?_, ?_⟩ <;>
    simp only [List.mem_cons, Prod.mk.injEq, List.cons.injEq, and_true, true_and, or_true,
      true_or, List.mem_singleton]

/-! ## The claims -/

/-- Claim C1, evaluated on the code: the configuration `longCfg` keeps every string within
its TLV ceiling, yet one pass of `nlldpd_loop` advances the cursor by 1069 bytes, past the
1024 bytes of `packet`. -/
theorem c1_frame_exceeds_packet :
    longCfg.fits ∧ nlldpd_loop_len longCfg = 1069 ∧ sizeof_packet < nlldpd_loop_len longCfg := by
  refine ⟨longCfg_fits, longCfg_len, ?_⟩
  rw [longCfg_len]; decide

/-- Claim C2 fails as stated: `longCfg` keeps every string within its TLV ceiling, but the
cursor of its pass ends 1069 bytes behind the start of the 1024 bytes of `packet`; a write
leaves the array and no frame is built. -/
theorem c2_no_frame_past_packet :
    longCfg.fits ∧ sizeof_packet < nlldpd_loop_len longCfg ∧
    nlldpd_loop_packet longCfg = none := by
  refine ⟨longCfg_fits, ?_, longCfg_packet⟩
  rw [longCfg_len]; decide

/-- Claim C2, amended: with the strings within their ceilings and a cursor that ends inside
`packet`, the pass builds a frame whose length is the value of `len` and is 14 for the
Ethernet header, plus 2 and the value length for every TLV before the End TLV, plus 2 for
the End TLV; written out, it is the sum of the eleven terms of the claim, the Management
Address TLV counting 2 + 12 bytes. -/
theorem c2_frame_length (c : Config) (h : c.fits) (hlen : nlldpd_loop_len c ≤ sizeof_packet) :
    ∃ frame : List Nat,
      nlldpd_loop_packet c = some frame ∧ frame.length = nlldpd_loop_len c ∧
      frame.length =
        14 + 9 + (3 + c.interface_id.length) + 4 + (2 + c.port_description.length) +
          (2 + c.system_name.length) + (2 + c.description.length) +
          (if c.seclvl = "private" ∧ c.ipv4_address ≠ NDM_IP_SOCKADDR_ANY then 2 + 12 else 0) +
          6 + (if c.seclvl = "private" then 7 else 0) +
          (if c.seclvl = "private" ∧ c.port ≠ 0 then 8 else 0) + 2 ∧
      ∃ body : List (Nat × List Nat),
        frame_tlvs frame = some (body ++ [(0, [])]) ∧
        frame.length = 14 + (body.map (fun x => 2 + x.2.length)).sum + 2 := by
  have hg : (if c.seclvl = "private" ∧ c.ipv4_address ≠ NDM_IP_SOCKADDR_ANY then 2 + 12 else 0)
      = (if management_gate c then 2 + 12 else 0) := by
    simp only [← management_gate_iff]
  refine ⟨frame_bytes c, packet_of_in_bounds c (in_bounds_of_fits c h hlen),
    (loop_len_eq_length c).symm, by rw [hg, frame_bytes_length], ?_⟩
  refine ⟨written_tlvs c, frame_tlvs_eq_written c h, ?_⟩
  · rw [frame_bytes_length]
    unfold written_tlvs
    split_ifs <;>
      simp [htons, htonl, management_value, ndm_mac_addr_t.sa_data, ndm_ip_sockaddr_t.s_addr] <;>
      omega

/-- Witness of claim C2, amended, on `privateCfg`, whose frame is 79 bytes long. -/
theorem c2_frame_length_witness :
    privateCfg.fits ∧ nlldpd_loop_len privateCfg ≤ sizeof_packet ∧
    ∃ frame : List Nat, nlldpd_loop_packet privateCfg = some frame ∧ frame.length = 79 := by
  obtain ⟨frame, h1, -, h2, -⟩ :=
    c2_frame_length privateCfg (by decide) privateCfg_in_bounds.2.2.2.2
  refine ⟨by decide, privateCfg_in_bounds.2.2.2.2, frame, h1, ?_⟩
  rw [h2]
  decide

/-- Claim C3 fails as stated: `long_privateCfg` keeps every string within its TLV ceiling,
but its pass moves the cursor by 1100 bytes; a write leaves `packet`, no frame is built and
there is nothing to walk. -/
theorem c3_no_walk_past_packet :
    long_privateCfg.fits ∧ nlldpd_loop_len long_privateCfg = 1100 ∧
    nlldpd_loop_packet long_privateCfg = none ∧
    (nlldpd_loop_packet long_privateCfg).bind frame_tlvs = none := by
  refine ⟨long_privateCfg_fits, long_privateCfg_len, long_privateCfg_packet, ?_⟩
  rw [long_privateCfg_packet]
  rfl

/-- Claim C3, amended: with the strings within their ceilings and a cursor that ends inside
`packet`, the walk over the payload of the frame, from offset 14 to its last byte, meets the
TLV types 1, 2, 3, 4, 5, 6, then 8 when the level is private and the address is not
`0.0.0.0`, then 7, then 127 when the level is private, then 127 again when moreover the
HTTP port is not 0, then 0; the TLV of type 0 is the last one met, it has no value, and its
two bytes are the last two bytes of the frame. -/
theorem c3_tlv_type_sequence (c : Config) (h : c.fits)
    (hlen : nlldpd_loop_len c ≤ sizeof_packet) :
    ∃ frame : List Nat, nlldpd_loop_packet c = some frame ∧
    ∃ tlvs : List (Nat × List Nat),
      frame_tlvs frame = some tlvs ∧
      tlvs.map Prod.fst =
        [1, 2, 3, 4, 5, 6] ++
        (if c.seclvl = "private" ∧ c.ipv4_address ≠ NDM_IP_SOCKADDR_ANY then [8] else []) ++
        [7] ++
        (if c.seclvl = "private" then [127] else []) ++
        (if c.seclvl = "private" ∧ c.port ≠ 0 then [127] else []) ++
        [0] ∧
      tlvs.getLast? = some (0, []) ∧
      frame.drop (frame.length - 2) = [0, 0] := by
  refine ⟨frame_bytes c, packet_of_in_bounds c (in_bounds_of_fits c h hlen),
    written_tlvs c ++ [(0, [])], frame_tlvs_eq_written c h, ?_, by simp, ?_⟩
  · simp only [← management_gate_iff]
    unfold written_tlvs
    split_ifs <;> simp
  · unfold frame_bytes
    rw [List.flatMap_append, ← List.append_assoc]
    have h0 : [((0 : Nat), ([] : List Nat))].flatMap tlv_bytes = [0, 0] := rfl
    rw [h0, List.length_append]
    exact List.drop_left' (by simp)

/-- Witness of claim C3, amended, on `privateCfg`: all eleven TLVs are present. -/
theorem c3_tlv_type_sequence_witness :
    privateCfg.fits ∧ nlldpd_loop_len privateCfg ≤ sizeof_packet ∧
    ∃ frame : List Nat, nlldpd_loop_packet privateCfg = some frame ∧
    ∃ tlvs : List (Nat × List Nat),
      frame_tlvs frame = some tlvs ∧
      tlvs.map Prod.fst = [1, 2, 3, 4, 5, 6, 8, 7, 127, 127, 0] := by
  refine ⟨by decide, privateCfg_in_bounds.2.2.2.2, ?_⟩
  obtain ⟨frame, h0, tlvs, h1, h2, -, -⟩ :=
    c3_tlv_type_sequence privateCfg (by decide) privateCfg_in_bounds.2.2.2.2
  refine ⟨frame, h0, tlvs, h1, ?_⟩
  rw [h2]
  decide

/-- Claim C4: for a type of at most 127 and a length of at most 511, the two bytes of
`TLV_HDR` are the high and the low byte of the 16-bit word `t * 512 + n`; the top 7 bits of
the word read back give `t` and its low 9 bits give `n`. -/
theorem c4_tlv_hdr_roundtrip (t n : Nat) (ht : t ≤ 127) (hn : n ≤ 511) :
    t * 512 + n < 65536 ∧
    TLV_HDR t n = [(t * 512 + n) / 256, (t * 512 + n) % 256] ∧
    ∀ b0 b1 : Nat, TLV_HDR t n = [b0, b1] →
      b0 < 256 ∧ b1 < 256 ∧ b0 * 256 + b1 = t * 512 + n ∧
      hdr_type b0 b1 = t ∧ hdr_len b0 b1 = n := by
  refine ⟨by omega, TLV_HDR_word t n ht hn, ?_⟩
  intro b0 b1 hb
  rw [TLV_HDR_word t n ht hn] at hb
  simp only [List.cons.injEq, and_true] at hb
  obtain ⟨hb0, hb1⟩ := hb
  rw [hdr_type_eq, hdr_len_eq]
  omega

/-- Witness of claim C4 on the header of a Port ID TLV with a 4-byte value. -/
theorem c4_tlv_hdr_roundtrip_witness :
    TLV_HDR 2 4 = [4, 4] ∧ hdr_type 4 4 = 2 ∧ hdr_len 4 4 = 4 := by
  have h := c4_tlv_hdr_roundtrip 2 4 (by decide) (by decide)
  exact ⟨h.2.1, (h.2.2 4 4 h.2.1).2.2.2⟩

/-- Claim C5 fails as stated: the pass of `wide_descriptionCfg` moves the cursor by 650
bytes only, but the copy of its 600-byte port description runs past the 512 bytes of
`tlv.u.data`; and the pass of `longCfg` runs past `packet`.  Neither builds a frame. -/
theorem c5_no_header_past_buffers :
    (wide_descriptionCfg.port_description.length = 600 ∧
      nlldpd_loop_len wide_descriptionCfg = 650 ∧
      nlldpd_loop_packet wide_descriptionCfg = none) ∧
    (nlldpd_loop_len longCfg = 1069 ∧ nlldpd_loop_packet longCfg = none) :=
  ⟨⟨List.length_replicate 600 0x63, wide_descriptionCfg_len, wide_descriptionCfg_packet⟩,
    longCfg_len, longCfg_packet⟩

/-- Claim C5, amended: when every write of the pass stays inside its buffer, the first 14
bytes of the frame are the destination address, which is `ff:ff:ff:ff:ff:ff` at the private
level and `01:80:c2:00:00:0e` at every other level, then the six bytes of the source
address, then `0x88, 0xCC`. -/
theorem c5_ethernet_header (c : Config) (hb : c.in_bounds) :
    ∃ frame : List Nat, nlldpd_loop_packet c = some frame ∧
    frame.take 14 =
      (if c.seclvl = "private" then [0xff, 0xff, 0xff, 0xff, 0xff, 0xff]
        else [0x01, 0x80, 0xc2, 0x00, 0x00, 0x0e]) ++
      [c.mac.d0, c.mac.d1, c.mac.d2, c.mac.d3, c.mac.d4, c.mac.d5] ++ [0x88, 0xcc] := by
  refine ⟨frame_bytes c, packet_of_in_bounds c hb, ?_⟩
  unfold frame_bytes
  have hd : dst_mac c = (if c.seclvl = "private" then [0xff, 0xff, 0xff, 0xff, 0xff, 0xff]
        else [0x01, 0x80, 0xc2, 0x00, 0x00, 0x0e]) := by
    unfold dst_mac dst_broadcast_mac dst_multicast_mac; rfl
  rw [← hd]
  exact List.take_left' (by simp [dst_mac_length, ndm_mac_addr_t.sa_data])

/-- Witness of claim C5, amended, on `privateCfg`. -/
theorem c5_ethernet_header_witness :
    privateCfg.in_bounds ∧
    ∃ frame : List Nat, nlldpd_loop_packet privateCfg = some frame ∧
    frame.take 14 =
      [0xff, 0xff, 0xff, 0xff, 0xff, 0xff, 0x00, 0x11, 0x22, 0x33, 0x44, 0x55, 0x88, 0xcc] :=
  ⟨privateCfg_in_bounds, c5_ethernet_header privateCfg privateCfg_in_bounds⟩

/-- Claim C6 fails as stated: at the public level `craftedCfg` stays inside every buffer,
with a frame of 560 bytes, but its system description has 512 bytes, so its header is
`0x0E, 0x00`, type 7 with no value, and the walk goes on through the description, where it
finds a TLV of type 8 and two of type 127.  And the public `longCfg` runs past `packet` and
builds no frame. -/
theorem c6_public_frame_with_optional_tlvs :
    (craftedCfg.seclvl ≠ "private" ∧ craftedCfg.in_bounds ∧
      craftedCfg.description.length = 512 ∧ TLV_HDR 6 512 = [0x0e, 0x00] ∧
      ∃ frame tlvs, nlldpd_loop_packet craftedCfg = some frame ∧ frame.length = 560 ∧
        frame_tlvs frame = some tlvs ∧
        tlvs.map Prod.fst = [1, 2, 3, 4, 5, 7, 8, 127, 127, 4, 7, 0] ∧
        tlvs.map Prod.fst ≠ [1, 2, 3, 4, 5, 6, 7, 0] ∧
        (∃ x ∈ tlvs, x.1 = 8) ∧ (∃ x ∈ tlvs, x.1 = 127)) ∧
    (longCfg.seclvl ≠ "private" ∧ nlldpd_loop_packet longCfg = none) := by
  refine ⟨⟨by decide, craftedCfg_in_bounds, crafted_description_length, by decide,
    frame_bytes craftedCfg, crafted_tlvs, craftedCfg_walk.1, ?_, craftedCfg_walk.2, ?_, ?_,
    ?_, ?_⟩, by decide, longCfg_packet⟩
  · rw [← loop_len_eq_length, craftedCfg_len]
  · exact crafted_tlvs_types
  · rw [crafted_tlvs_types]; decide
  · exact ⟨(8, [5, 1, 10, 1, 1, 1, 2, 1, 1, 1, 7, 1]), crafted_tlvs_mem.2.1, rfl⟩
  · exact ⟨(127, [0xce, 0x1e, 0xe7, 0x01, 0x02]), crafted_tlvs_mem.2.2.1, rfl⟩

/-- Claim C6, amended: at a security level other than private, with the strings within
their ceilings and a cursor that ends inside `packet`, the pass builds a frame that is the
same whatever the management address, the interface index and the HTTP port are, and whose
TLV types are exactly 1, 2, 3, 4, 5, 6, 7, 0 whatever the mode is: no TLV of type 8 and
none of type 127. -/
theorem c6_public_frame_has_no_optional_tlv (c : Config) (hpub : c.seclvl ≠ "private")
    (h : c.fits) (hlen : nlldpd_loop_len c ≤ sizeof_packet) :
    ∃ frame : List Nat, nlldpd_loop_packet c = some frame ∧
    (∀ (ip : ndm_ip_sockaddr_t) (idx : Int) (port : Nat),
      nlldpd_loop_packet { c with ipv4_address := ip, interface_idx := idx, port := port } =
        some frame) ∧
    ∃ tlvs : List (Nat × List Nat),
      frame_tlvs frame = some tlvs ∧
      tlvs.map Prod.fst = [1, 2, 3, 4, 5, 6, 7, 0] ∧
      ∀ x ∈ tlvs, x.1 ≠ 8 ∧ x.1 ≠ 127 := by
  refine ⟨frame_bytes c, packet_of_in_bounds c (in_bounds_of_fits c h hlen), ?_, ?_⟩
  · intro ip idx port
    have hg : management_gate c = false := by simp [management_gate, hpub]
    have hg2 : management_gate
        { c with ipv4_address := ip, interface_idx := idx, port := port } = false := by
      simp [management_gate, hpub]
    have hl : nlldpd_loop_len { c with ipv4_address := ip, interface_idx := idx, port := port } =
        nlldpd_loop_len c := by
      rw [loop_len_eq, loop_len_eq, hg, hg2]
      simp only [hpub, false_and, if_false]
    have hf : frame_bytes { c with ipv4_address := ip, interface_idx := idx, port := port } =
        frame_bytes c := by
      unfold frame_bytes written_tlvs
      rw [hg, hg2]
      simp only [hpub, false_and, if_false]
      rfl
    have hb : Config.in_bounds
        { c with ipv4_address := ip, interface_idx := idx, port := port } :=
      in_bounds_of_fits _ h (le_of_eq_of_le hl hlen)
    exact (packet_of_in_bounds _ hb).trans (congrArg some hf)
  · have ht : (written_tlvs c ++ [(0, [])]).map Prod.fst = [1, 2, 3, 4, 5, 6, 7, 0] := by
      simp [written_tlvs, management_gate, hpub]
    refine ⟨written_tlvs c ++ [(0, [])], frame_tlvs_eq_written c h, ht, ?_⟩
    intro x hx
    have hx1 : x.1 ∈ (written_tlvs c ++ [(0, [])]).map Prod.fst := List.mem_map_of_mem _ hx
    rw [ht] at hx1
    simp only [List.mem_cons, List.mem_singleton, List.not_mem_nil, or_false] at hx1
    omega

/-- Witness of claim C6, amended, on `publicCfg`, which has a management address and an
HTTP port. -/
theorem c6_public_frame_has_no_optional_tlv_witness :
    publicCfg.seclvl ≠ "private" ∧ publicCfg.fits ∧
    nlldpd_loop_len publicCfg ≤ sizeof_packet ∧
    publicCfg.ipv4_address ≠ NDM_IP_SOCKADDR_ANY ∧ publicCfg.port ≠ 0 ∧
    ∃ frame : List Nat, nlldpd_loop_packet publicCfg = some frame ∧
    ∃ tlvs : List (Nat × List Nat),
      frame_tlvs frame = some tlvs ∧
      tlvs.map Prod.fst = [1, 2, 3, 4, 5, 6, 7, 0] := by
  refine ⟨by decide, by decide, publicCfg_in_bounds.2.2.2.2, by decide, by decide, ?_⟩
  obtain ⟨frame, h0, -, tlvs, h1, h2, -⟩ :=
    c6_public_frame_has_no_optional_tlv publicCfg (by decide) (by decide)
      publicCfg_in_bounds.2.2.2.2
  exact ⟨frame, h0, tlvs, h1, h2⟩

/-- Claim C7 fails as stated: in the frame of `craftedCfg`, built inside every buffer at the
public level, the walk finds a TLV of type 8 whose address bytes are `10, 1, 1, 1`, not the
configured `10, 0, 0, 1`; and `long_privateCfg`, private with the address `10.0.0.1` and
every string within its ceiling, runs past `packet` and builds no frame to hold the TLV. -/
theorem c7_management_address_misread :
    (craftedCfg.seclvl ≠ "private" ∧ craftedCfg.in_bounds ∧
      craftedCfg.ipv4_address = ⟨10, 0, 0, 1⟩ ∧
      ∃ frame tlvs, nlldpd_loop_packet craftedCfg = some frame ∧
        frame_tlvs frame = some tlvs ∧ (8, [5, 1, 10, 1, 1, 1, 2, 1, 1, 1, 7, 1]) ∈ tlvs) ∧
    ((long_privateCfg.seclvl = "private" ∧
        long_privateCfg.ipv4_address ≠ NDM_IP_SOCKADDR_ANY) ∧
      long_privateCfg.fits ∧ nlldpd_loop_packet long_privateCfg = none) := by
  refine ⟨⟨by decide, craftedCfg_in_bounds, rfl, frame_bytes craftedCfg, crafted_tlvs,
    craftedCfg_walk.1, craftedCfg_walk.2, crafted_tlvs_mem.2.1⟩, by decide,
    long_privateCfg_fits, long_privateCfg_packet⟩

/-- Claim C7, amended: with the strings within their ceilings and a cursor that ends inside
`packet`, the frame holds a TLV of type 8 if and only if the level is private and the
address is not `0.0.0.0`; bytes 2 to 5 of the value of such a TLV are the four bytes of the
configured address in network order, and bytes 7 to 10 are the big-endian bytes of the
interface index taken as a `uint32_t`, which is the index itself when it is not negative. -/
theorem c7_management_address_presence (c : Config) (h : c.fits)
    (hlen : nlldpd_loop_len c ≤ sizeof_packet) :
    ∃ frame : List Nat, nlldpd_loop_packet c = some frame ∧
    ∃ tlvs : List (Nat × List Nat),
      frame_tlvs frame = some tlvs ∧
      ((∃ v, (8, v) ∈ tlvs) ↔ (c.seclvl = "private" ∧ c.ipv4_address ≠ NDM_IP_SOCKADDR_ANY)) ∧
      ∀ v, (8, v) ∈ tlvs →
        (v.drop 2).take 4 =
          [c.ipv4_address.a0, c.ipv4_address.a1, c.ipv4_address.a2, c.ipv4_address.a3] ∧
        ∃ i0 i1 i2 i3 : Nat, (v.drop 7).take 4 = [i0, i1, i2, i3] ∧
          i0 < 256 ∧ i1 < 256 ∧ i2 < 256 ∧ i3 < 256 ∧
          ((i0 * 16777216 + i1 * 65536 + i2 * 256 + i3 : Nat) : Int) =
            c.interface_idx % 4294967296 ∧
          (0 ≤ c.interface_idx → c.interface_idx < 4294967296 →
            ((i0 * 16777216 + i1 * 65536 + i2 * 256 + i3 : Nat) : Int) = c.interface_idx) := by
  refine ⟨frame_bytes c, packet_of_in_bounds c (in_bounds_of_fits c h hlen),
    written_tlvs c ++ [(0, [])], frame_tlvs_eq_written c h, ?_, ?_⟩
  · simp only [mem_written_8, management_gate_iff]
    constructor
    · rintro ⟨v, hv, -⟩; exact hv
    · intro hg; exact ⟨_, hg, rfl⟩
  · intro v hv
    rw [mem_written_8] at hv
    obtain ⟨-, rfl⟩ := hv
    refine ⟨rfl, _, _, _, _, rfl, ?_⟩
    have hn : 0 ≤ c.interface_idx % 4294967296 := Int.emod_nonneg _ (by decide)
    have hc : (((c.interface_idx % 4294967296).toNat : Nat) : Int) =
        c.interface_idx % 4294967296 := Int.toNat_of_nonneg hn
    generalize (c.interface_idx % 4294967296).toNat = n at hc
    have hlt : c.interface_idx % 4294967296 < 4294967296 := Int.emod_lt_of_pos _ (by decide)
    refine ⟨by omega, by omega, by omega, by omega, by omega, ?_⟩
    intro h0 h1
    rw [Int.emod_eq_of_lt h0 h1] at hc
    omega

/-- Witness of claim C7, amended, on `privateCfg`: address `10.0.0.1` and interface index 7. -/
theorem c7_management_address_presence_witness :
    privateCfg.fits ∧ nlldpd_loop_len privateCfg ≤ sizeof_packet ∧
    ∃ frame : List Nat, nlldpd_loop_packet privateCfg = some frame ∧
    ∃ tlvs : List (Nat × List Nat),
      frame_tlvs frame = some tlvs ∧
      (∃ v, (8, v) ∈ tlvs) ∧
      ∀ v, (8, v) ∈ tlvs →
        (v.drop 2).take 4 = [0x0a, 0x00, 0x00, 0x01] ∧ (v.drop 7).take 4 = [0, 0, 0, 7] := by
  refine ⟨by decide, privateCfg_in_bounds.2.2.2.2, ?_⟩
  obtain ⟨frame, h0, tlvs, h1, h2, h3⟩ :=
    c7_management_address_presence privateCfg (by decide) privateCfg_in_bounds.2.2.2.2
  refine ⟨frame, h0, tlvs, h1, h2.2 (by decide), ?_⟩
  intro v hv
  obtain ⟨ha, i0, i1, i2, i3, hi, b0, b1, b2, b3, -, hidx⟩ := h3 v hv
  refine ⟨ha, ?_⟩
  have hsum := hidx (by decide) (by decide)
  have h7 : privateCfg.interface_idx = 7 := rfl
  rw [h7] at hsum
  have : i0 = 0 ∧ i1 = 0 ∧ i2 = 0 ∧ i3 = 7 := by omega
  obtain ⟨rfl, rfl, rfl, rfl⟩ := this
  exact hi

/-- Claim C8 fails as stated: on `privateCfg`, whose pass stays inside every buffer, the
Management Address TLV starts at offset 42 with the header `0x10, 0x0C`, whose length field
is 12, and its value is the eleven bytes of the claim followed by one more byte, 0.  And on
`long_privateCfg`, where the guard of the TLV holds too, the pass runs past `packet` and
builds no frame. -/
theorem c8_value_has_twelve_bytes :
    (privateCfg.seclvl = "private" ∧ privateCfg.ipv4_address ≠ NDM_IP_SOCKADDR_ANY) ∧
    (∃ frame : List Nat, nlldpd_loop_packet privateCfg = some frame ∧
      (frame.drop 42).take 14 = [0x10, 0x0c, 5, 1, 10, 0, 0, 1, 2, 0, 0, 0, 7, 0] ∧
      ∃ tlvs : List (Nat × List Nat),
        frame_tlvs frame = some tlvs ∧
        (8, [5, 1, 10, 0, 0, 1, 2, 0, 0, 0, 7, 0]) ∈ tlvs ∧
        (8, [5, 1] ++ [10, 0, 0, 1] ++ [2] ++ [0, 0, 0, 7]) ∉ tlvs) ∧
    hdr_type 0x10 0x0c = 8 ∧ hdr_len 0x10 0x0c = 12 ∧
    ([5, 1] ++ [10, 0, 0, 1] ++ [2] ++ [0, 0, 0, 7] : List Nat).length = 11 ∧
    ((long_privateCfg.seclvl = "private" ∧
        long_privateCfg.ipv4_address ≠ NDM_IP_SOCKADDR_ANY) ∧
      nlldpd_loop_packet long_privateCfg = none) := by
  refine ⟨by decide, ?_, by decide, by decide, by decide, by decide, long_privateCfg_packet⟩
  refine ⟨frame_bytes privateCfg, packet_of_in_bounds _ privateCfg_in_bounds, by decide,
    written_tlvs privateCfg ++ [(0, [])], frame_tlvs_eq_written privateCfg (by decide),
    ?_, ?_⟩
  · rw [mem_written_8]; exact ⟨by decide, by decide⟩
  · rw [mem_written_8]; intro hc; exact absurd hc.2 (by decide)

/-- Claim C8, amended: whenever the level is private and the address is not `0.0.0.0`, and
every write of the pass stays inside its buffer, the frame holds right behind the System
Description TLV the header `0x10, 0x0C`, type 8 and length 12, and the twelve bytes 5, 1, the
four address bytes, 2, the four big-endian bytes of the interface index and a final 0; the
Capabilities TLV follows at once.  With the strings within their ceilings this is the one
value of type 8 the walk finds. -/
theorem c8_management_value (c : Config) (hb : c.in_bounds)
    (hg : c.seclvl = "private" ∧ c.ipv4_address ≠ NDM_IP_SOCKADDR_ANY) :
    ∃ frame : List Nat, nlldpd_loop_packet c = some frame ∧
    ∃ i0 i1 i2 i3 : Nat,
      i0 < 256 ∧ i1 < 256 ∧ i2 < 256 ∧ i3 < 256 ∧
      ((i0 * 16777216 + i1 * 65536 + i2 * 256 + i3 : Nat) : Int) =
        c.interface_idx % 4294967296 ∧
      (∃ front rest : List Nat,
        frame =
          front ++
          [0x10, 0x0c, 5, 1, c.ipv4_address.a0, c.ipv4_address.a1, c.ipv4_address.a2,
            c.ipv4_address.a3, 2, i0, i1, i2, i3, 0] ++ rest ∧
        front.length = 36 + c.interface_id.length + c.port_description.length +
          c.system_name.length + c.description.length ∧
        rest.take 2 = [0x0e, 0x04]) ∧
      hdr_type 0x10 0x0c = 8 ∧ hdr_len 0x10 0x0c = 12 ∧
      (c.fits → ∃ tlvs : List (Nat × List Nat),
        frame_tlvs frame = some tlvs ∧
        ∀ v, (8, v) ∈ tlvs ↔
          v = [5, 1, c.ipv4_address.a0, c.ipv4_address.a1, c.ipv4_address.a2,
            c.ipv4_address.a3, 2, i0, i1, i2, i3, 0]) := by
  have hgate : management_gate c = true := (management_gate_iff c).2 hg
  have hn : 0 ≤ c.interface_idx % 4294967296 := Int.emod_nonneg _ (by decide)
  have hc : (((c.interface_idx % 4294967296).toNat : Nat) : Int) =
      c.interface_idx % 4294967296 := Int.toNat_of_nonneg hn
  have hlt : c.interface_idx % 4294967296 < 4294967296 := Int.emod_lt_of_pos _ (by decide)
  have hv : management_value c =
      [5, 1, c.ipv4_address.a0, c.ipv4_address.a1, c.ipv4_address.a2, c.ipv4_address.a3, 2,
        (c.interface_idx % 4294967296).toNat % 4294967296 / 16777216,
        (c.interface_idx % 4294967296).toNat / 65536 % 256,
        (c.interface_idx % 4294967296).toNat / 256 % 256,
        (c.interface_idx % 4294967296).toNat % 256, 0] := rfl
  generalize (c.interface_idx % 4294967296).toNat = n at hc hv
  refine ⟨frame_bytes c, packet_of_in_bounds c hb,
    n % 4294967296 / 16777216, n / 65536 % 256, n / 256 % 256, n % 256,
    by omega, by omega, by omega, by omega, by omega, ?_, by decide, by decide, ?_⟩
  · obtain ⟨front, hlen, hsplit⟩ := packet_split c
    have h8 : TLV_HDR 8 12 = [0x10, 0x0c] := by decide
    have h7 : TLV_HDR 7 4 = [0x0e, 0x04] := by decide
    rw [if_pos hgate, hv, h8, h7] at hsplit
    refine ⟨front, [0x0e, 0x04] ++ (htons (caps c) ++ htons (caps c)) ++
      (if c.seclvl = "private" then TLV_HDR 127 5 ++ [0xce, 0x1e, 0xe7, 1, mval c % 256]
        else []) ++
      (if c.seclvl = "private" ∧ c.port ≠ 0 then
        TLV_HDR 127 6 ++ ([0xce, 0x1e, 0xe7, 2] ++ htons c.port) else []) ++ [0, 0], ?_, hlen, ?_⟩
    · rw [hsplit]
      simp only [List.append_assoc, List.cons_append, List.nil_append]
    · rfl
  · intro h
    refine ⟨written_tlvs c ++ [(0, [])], frame_tlvs_eq_written c h, ?_⟩
    intro v
    rw [mem_written_8, hv]
    simp [hgate]

/-- Witness of claim C8, amended, on `privateCfg`. -/
theorem c8_management_value_witness :
    privateCfg.in_bounds ∧
    (privateCfg.seclvl = "private" ∧ privateCfg.ipv4_address ≠ NDM_IP_SOCKADDR_ANY) ∧
    ∃ frame : List Nat, nlldpd_loop_packet privateCfg = some frame ∧
    ∃ tlvs : List (Nat × List Nat),
      frame_tlvs frame = some tlvs ∧
      ∀ v, (8, v) ∈ tlvs ↔ v = [5, 1, 10, 0, 0, 1, 2, 0, 0, 0, 7, 0] := by
  refine ⟨privateCfg_in_bounds, by decide, ?_⟩
  obtain ⟨frame, h0, i0, i1, i2, i3, b0, b1, b2, b3, hidx, -, -, -, hw⟩ :=
    c8_management_value privateCfg privateCfg_in_bounds (by decide)
  have h7 : privateCfg.interface_idx % 4294967296 = 7 := by decide
  rw [h7] at hidx
  have : i0 = 0 ∧ i1 = 0 ∧ i2 = 0 ∧ i3 = 7 := by omega
  obtain ⟨rfl, rfl, rfl, rfl⟩ := this
  obtain ⟨tlvs, h1, h2⟩ := hw (by decide)
  exact ⟨frame, h0, tlvs, h1, h2⟩

/-- Claim C9 fails as stated: the pass of `wide_interfaceCfg` copies an interface name of
600 bytes past the 511 bytes of `tlv.u.sub.data`, and the pass of `long_privateCfg`, a
bridge in mode router, runs past `packet`; neither builds a frame that could hold the
Capabilities TLV. -/
theorem c9_no_capabilities_past_buffers :
    (wide_interfaceCfg.interface_id.length = 600 ∧
      nlldpd_loop_packet wide_interfaceCfg = none) ∧
    (long_privateCfg.is_bridge = true ∧ long_privateCfg.mode = "router" ∧
      nlldpd_loop_len long_privateCfg = 1100 ∧ nlldpd_loop_packet long_privateCfg = none) :=
  ⟨⟨List.length_replicate 600 0x63, wide_interfaceCfg_packet⟩, rfl, rfl, long_privateCfg_len,
    long_privateCfg_packet⟩

/-- Claim C9, amended: when every write of the pass stays inside its buffer, the
Capabilities TLV in the frame is the six bytes `0x0E, 0x04` and twice the big-endian pair of
`k`, where `k` is 4 for a bridge plus 16 for mode router, or 2 for mode repeater, or nothing
for any other mode; these six bytes stand behind the Management Address TLV, or behind the
System Description TLV when there is none, and before the vendor TLVs and the End TLV.  A
bridge in mode router has `k = 20`.  With the strings within their ceilings the walk finds
this one value of type 7. -/
theorem c9_capabilities (c : Config) (hb : c.in_bounds) :
    ∃ frame : List Nat, nlldpd_loop_packet c = some frame ∧
    ∃ k : Nat,
      k = (if c.is_bridge then 4 else 0) +
        (if c.mode = "router" then 16 else if c.mode = "repeater" then 2 else 0) ∧
      caps c = k ∧
      (c.is_bridge = true → c.mode = "router" → k = 20) ∧
      (c.mode = "client" ∨ c.mode = "ap" → k = if c.is_bridge then 4 else 0) ∧
      (∃ front rest : List Nat,
        frame = front ++ [0x0e, 0x04, k / 256, k % 256, k / 256, k % 256] ++ rest ∧
        front.length = 36 + c.interface_id.length + c.port_description.length +
          c.system_name.length + c.description.length +
          (if c.seclvl = "private" ∧ c.ipv4_address ≠ NDM_IP_SOCKADDR_ANY then 14 else 0) ∧
        rest.length = (if c.seclvl = "private" then 7 else 0) +
          (if c.seclvl = "private" ∧ c.port ≠ 0 then 8 else 0) + 2) ∧
      (c.fits → ∃ tlvs : List (Nat × List Nat),
        frame_tlvs frame = some tlvs ∧
        ∀ v, (7, v) ∈ tlvs ↔ v = [k / 256, k % 256, k / 256, k % 256]) := by
  have hk := caps_eq c
  have hle : caps c ≤ 20 := by
    rw [hk]; split_ifs <;> decide
  have hh : htons (caps c) = [caps c / 256, caps c % 256] := by
    unfold htons; congr 1; omega
  refine ⟨frame_bytes c, packet_of_in_bounds c hb, caps c, hk, rfl, ?_, ?_, ?_, ?_⟩
  · intro hb hm
    rw [hk, hb, hm]; rfl
  · intro hm
    have h1 : ¬ c.mode = "router" := by
      rcases hm with hm | hm <;> rw [hm] <;> decide
    have h2 : ¬ c.mode = "repeater" := by
      rcases hm with hm | hm <;> rw [hm] <;> decide
    rw [hk, if_neg h1, if_neg h2]; rfl
  · obtain ⟨front, hlen, hsplit⟩ := packet_split c
    have h7 : TLV_HDR 7 4 = [0x0e, 0x04] := by decide
    have h5 : (TLV_HDR 127 5).length = 2 := rfl
    rw [h7, hh] at hsplit
    refine ⟨front ++ (if management_gate c then TLV_HDR 8 12 ++ management_value c else []),
      (if c.seclvl = "private" then TLV_HDR 127 5 ++ [0xce, 0x1e, 0xe7, 1, mval c % 256]
        else []) ++
      (if c.seclvl = "private" ∧ c.port ≠ 0 then
        TLV_HDR 127 6 ++ ([0xce, 0x1e, 0xe7, 2] ++ htons c.port) else []) ++ [0, 0], ?_, ?_, ?_⟩
    · rw [hsplit]
      simp only [List.append_assoc, List.cons_append, List.nil_append]
    · simp only [← management_gate_iff, List.length_append, hlen]
      split_ifs <;> simp [TLV_HDR_length, management_value, htonl, ndm_ip_sockaddr_t.s_addr]
    · simp only [List.length_append]
      split_ifs <;> simp [TLV_HDR_length, htons]
  · intro h
    refine ⟨written_tlvs c ++ [(0, [])], frame_tlvs_eq_written c h, ?_⟩
    intro v
    rw [mem_written_7, hh]
    simp

/-- Witness of claim C9, amended, on `privateCfg`, a bridge in mode router: the walk finds
the value `0, 20, 0, 20` and no other of type 7. -/
theorem c9_capabilities_witness :
    privateCfg.in_bounds ∧ privateCfg.fits ∧ caps privateCfg = 20 ∧
    ∃ frame : List Nat, nlldpd_loop_packet privateCfg = some frame ∧
    ∃ tlvs : List (Nat × List Nat),
      frame_tlvs frame = some tlvs ∧
      ∀ v, (7, v) ∈ tlvs ↔ v = [0, 20, 0, 20] := by
  obtain ⟨frame, h0, k, -, hk, h20, -, -, hw⟩ := c9_capabilities privateCfg privateCfg_in_bounds
  have hk20 : k = 20 := h20 rfl rfl
  subst hk20
  obtain ⟨tlvs, h1, h2⟩ := hw (by decide)
  exact ⟨privateCfg_in_bounds, by decide, hk, frame, h0, tlvs, h1, h2⟩

/-- Claim C10 fails as stated: the pass of `wide_descriptionCfg` copies a port description
of 600 bytes past the 512 bytes of `tlv.u.data`, and the pass of `long_privateCfg`, at the
private level, runs past `packet`, 1100 bytes against 1024; neither builds a frame, so the
private one holds no System Mode TLV. -/
theorem c10_no_system_mode_past_buffers :
    (wide_descriptionCfg.port_description.length = 600 ∧
      nlldpd_loop_packet wide_descriptionCfg = none) ∧
    (long_privateCfg.seclvl = "private" ∧ nlldpd_loop_len long_privateCfg = 1100 ∧
      sizeof_packet = 1024 ∧ nlldpd_loop_packet long_privateCfg = none) :=
  ⟨⟨List.length_replicate 600 0x63, wide_descriptionCfg_packet⟩, rfl, long_privateCfg_len, rfl,
    long_privateCfg_packet⟩

/-- Claim C10, amended: when every write of the pass stays inside its buffer, the frame
holds at the private level, right behind the Capabilities TLV, the seven bytes
`0xFE, 0x05, 0xCE, 0x1E, 0xE7, 0x01, code`, and at any other level it holds nothing there;
`code` is 1 for mode router, 2 for client, 3 for repeater and 4 for ap.  With the strings
within their ceilings the walk finds a TLV of type 127 whose value starts with
`0xCE, 0x1E, 0xE7, 0x01` if and only if the level is private, and the rest of that value is
the byte `code`. -/
theorem c10_system_mode (c : Config) (hb : c.in_bounds) :
    ∃ frame : List Nat, nlldpd_loop_packet c = some frame ∧
    ∃ code : Nat,
      (c.mode = "router" → code = 1) ∧ (c.mode = "client" → code = 2) ∧
      (c.mode = "repeater" → code = 3) ∧ (c.mode = "ap" → code = 4) ∧
      (∃ front rest : List Nat,
        frame =
          front ++
          (if c.seclvl = "private" then [0xfe, 0x05, 0xce, 0x1e, 0xe7, 0x01, code] else []) ++
          rest ∧
        front.length = 36 + c.interface_id.length + c.port_description.length +
          c.system_name.length + c.description.length +
          (if c.seclvl = "private" ∧ c.ipv4_address ≠ NDM_IP_SOCKADDR_ANY then 14 else 0) + 6 ∧
        front.drop (front.length - 6) = 0x0e :: 0x04 :: (htons (caps c) ++ htons (caps c)) ∧
        rest.length = (if c.seclvl = "private" ∧ c.port ≠ 0 then 8 else 0) + 2) ∧
      hdr_type 0xfe 0x05 = 127 ∧ hdr_len 0xfe 0x05 = 5 ∧
      (c.fits → ∃ tlvs : List (Nat × List Nat),
        frame_tlvs frame = some tlvs ∧
        ((∃ v, (127, 0xce :: 0x1e :: 0xe7 :: 0x01 :: v) ∈ tlvs) ↔ c.seclvl = "private") ∧
        ∀ v, (127, 0xce :: 0x1e :: 0xe7 :: 0x01 :: v) ∈ tlvs → v = [code]) := by
  refine ⟨frame_bytes c, packet_of_in_bounds c hb, mval c, ?_, ?_, ?_, ?_, ?_, by decide,
    by decide, ?_⟩
  · intro hm; unfold mval; rw [hm]; decide
  · intro hm; unfold mval; rw [hm]; decide
  · intro hm; unfold mval; rw [hm]; decide
  · intro hm; unfold mval; rw [hm]; decide
  · obtain ⟨front, hlen, hsplit⟩ := packet_split c
    have h7 : TLV_HDR 7 4 = [0x0e, 0x04] := by decide
    have h5 : TLV_HDR 127 5 = [0xfe, 0x05] := by decide
    rw [h7, h5, mval_lt] at hsplit
    refine ⟨front ++ (if management_gate c then TLV_HDR 8 12 ++ management_value c else []) ++
        ([0x0e, 0x04] ++ (htons (caps c) ++ htons (caps c))),
      (if c.seclvl = "private" ∧ c.port ≠ 0 then
        TLV_HDR 127 6 ++ ([0xce, 0x1e, 0xe7, 2] ++ htons c.port) else []) ++ [0, 0],
      ?_, ?_, ?_, ?_⟩
    · rw [hsplit]
      split_ifs <;> simp only [List.append_assoc, List.cons_append, List.nil_append]
    · simp only [← management_gate_iff, List.length_append, hlen]
      split_ifs <;>
        simp [TLV_HDR_length, management_value, htonl, htons, ndm_ip_sockaddr_t.s_addr]
    · exact List.drop_left' (by simp [htons]; omega)
    · simp only [List.length_append]
      split_ifs <;> simp [TLV_HDR_length, htons]
  · intro h
    refine ⟨written_tlvs c ++ [(0, [])], frame_tlvs_eq_written c h, ?_, ?_⟩
    · simp only [mem_written_127_mode]
      constructor
      · rintro ⟨v, hv, -⟩; exact hv
      · intro hp; exact ⟨_, hp, rfl⟩
    · intro v hv
      rw [mem_written_127_mode, mval_lt] at hv
      exact hv.2

/-- Witness of claim C10, amended, on `privateCfg`, in mode router: the value behind the
vendor identifier and subtype 1 is the byte 1. -/
theorem c10_system_mode_witness :
    privateCfg.in_bounds ∧ privateCfg.fits ∧ privateCfg.seclvl = "private" ∧
    privateCfg.mode = "router" ∧
    ∃ frame : List Nat, nlldpd_loop_packet privateCfg = some frame ∧
    ∃ tlvs : List (Nat × List Nat),
      frame_tlvs frame = some tlvs ∧
      (∃ v, (127, 0xce :: 0x1e :: 0xe7 :: 0x01 :: v) ∈ tlvs) ∧
      ∀ v, (127, 0xce :: 0x1e :: 0xe7 :: 0x01 :: v) ∈ tlvs → v = [1] := by
  obtain ⟨frame, h0, code, hr, -, -, -, -, -, -, hw⟩ :=
    c10_system_mode privateCfg privateCfg_in_bounds
  have hc : code = 1 := hr rfl
  subst hc
  obtain ⟨tlvs, h1, h2, h3⟩ := hw (by decide)
  exact ⟨privateCfg_in_bounds, by decide, rfl, rfl, frame, h0, tlvs, h1, h2.2 rfl, h3⟩

theorem loop_exit (interrupted : Nat → Bool) (sendto : Nat → sendto_result)
    (fuel i bwrite retries : Nat) (sleeps : List timespec)
    (h : interrupted i = true ∨ bwrite ≠ 0) :
    nlldpd_nonblock_write_loop interrupted sendto (fuel + 1) i bwrite retries sleeps =
      some { ret := true, bytes_written := bwrite, sendto_calls := i, sleeps := sleeps,
             errors := [] } := by
  unfold nlldpd_nonblock_write_loop
  rcases h with h | h <;> simp [h]

theorem loop_transient_step (interrupted : Nat → Bool) (sendto : Nat → sendto_result)
    (fuel i retries : Nat) (sleeps : List timespec)
    (hi : interrupted i = false) (ht : transient (sendto i)) (hr : retries + 1 ≤ 5) :
    nlldpd_nonblock_write_loop interrupted sendto (fuel + 1) i 0 retries sleeps =
      nlldpd_nonblock_write_loop interrupted sendto fuel (i + 1) 0 (retries + 1)
        (sleeps ++ [⟨0, READ_RETRY_MS * 1000⟩]) := by
  obtain ⟨hn, he⟩ := ht
  rw [nlldpd_nonblock_write_loop]
  simp [hi, hn, he, READ_RETRY_TIMES, hr]

theorem loop_transient_last (interrupted : Nat → Bool) (sendto : Nat → sendto_result)
    (fuel i retries : Nat) (sleeps : List timespec)
    (hi : interrupted i = false) (ht : transient (sendto i)) (hr : 5 < retries + 1) :
    nlldpd_nonblock_write_loop interrupted sendto (fuel + 1) i 0 retries sleeps =
      some { ret := false, bytes_written := 0, sendto_calls := i + 1, sleeps := sleeps,
             errors := [] } := by
  obtain ⟨hn, he⟩ := ht
  rw [nlldpd_nonblock_write_loop]
  simp [hi, hn, he, READ_RETRY_TIMES]
  omega

theorem loop_sent_step (interrupted : Nat → Bool) (sendto : Nat → sendto_result)
    (fuel i retries : Nat) (sleeps : List timespec)
    (hi : interrupted i = false) (hn : 0 ≤ (sendto i).n) :
    nlldpd_nonblock_write_loop interrupted sendto (fuel + 1) i 0 retries sleeps =
      nlldpd_nonblock_write_loop interrupted sendto fuel (i + 1) (sendto i).n.toNat retries
        sleeps := by
  rw [nlldpd_nonblock_write_loop]
  simp [hi, not_lt.mpr hn]

theorem loop_failed (interrupted : Nat → Bool) (sendto : Nat → sendto_result)
    (fuel i retries : Nat) (sleeps : List timespec)
    (hi : interrupted i = false) (hn : (sendto i).n < 0) (he : ¬ transient (sendto i)) :
    nlldpd_nonblock_write_loop interrupted sendto (fuel + 1) i 0 retries sleeps =
      some { ret := false, bytes_written := 0, sendto_calls := i + 1, sleeps := sleeps,
             errors := ["unable send packet"] } := by
  have he2 : ¬ ((sendto i).errno = EINTR ∨ (sendto i).errno = EAGAIN ∨
      (sendto i).errno = EWOULDBLOCK) := fun h => he ⟨hn, h⟩
  rw [nlldpd_nonblock_write_loop]
  simp only [hi, Bool.not_false, beq_self_eq_true, Bool.and_self, if_true, hn, he2, if_false]

theorem loop_transients (interrupted : Nat → Bool) (sendto : Nat → sendto_result) (k : Nat) :
    ∀ (fuel i retries : Nat) (sleeps : List timespec), retries + k ≤ 5 →
      (∀ j, j < k → interrupted (i + j) = false ∧ transient (sendto (i + j))) →
      nlldpd_nonblock_write_loop interrupted sendto (fuel + k) i 0 retries sleeps =
        nlldpd_nonblock_write_loop interrupted sendto fuel (i + k) 0 (retries + k)
          (sleeps ++ List.replicate k ⟨0, READ_RETRY_MS * 1000⟩) := by
  induction k with
  | zero => intro fuel i retries sleeps _ _; simp
  | succ k ih =>
    intro fuel i retries sleeps hr h
    have h0 := h 0 (Nat.succ_pos k)
    rw [Nat.add_zero] at h0
    rw [← Nat.add_assoc, loop_transient_step _ _ _ _ _ _ h0.1 h0.2 (by omega),
      ih fuel (i + 1) (retries + 1) _ (by omega)
        (fun j hj => by have := h (j + 1) (by omega); rwa [Nat.add_assoc, Nat.add_comm 1 j])]
    simp only [List.append_assoc, List.singleton_append, ← List.replicate_succ]
    congr 1 <;> omega

theorem loop_returns (interrupted : Nat → Bool) (sendto : Nat → sendto_result)
    (hi : ∀ j, interrupted j = false) (hz : ∀ j, (sendto j).n ≠ 0) (d : Nat) :
    ∀ (fuel i retries : Nat) (sleeps : List timespec), retries + d = 5 → d + 2 ≤ fuel →
      ∃ w, nlldpd_nonblock_write_loop interrupted sendto fuel i 0 retries sleeps = some w ∧
        w.sendto_calls ≤ i + d + 1 := by
  induction d with
  | zero =>
    intro fuel i retries sleeps hr hf
    obtain ⟨f, rfl⟩ : ∃ f, fuel = f + 2 := ⟨fuel - 2, by omega⟩
    by_cases hn : (sendto i).n < 0
    · by_cases ht : transient (sendto i)
      · exact ⟨_, loop_transient_last _ _ _ _ _ _ (hi i) ht (by omega), by simp⟩
      · exact ⟨_, loop_failed _ _ _ _ _ _ (hi i) hn ht, by simp⟩
    · have hpos : 0 < (sendto i).n := lt_of_le_of_ne (not_lt.mp hn) (Ne.symm (hz i))
      rw [loop_sent_step _ _ _ _ _ _ (hi i) (not_lt.mp hn)]
      exact ⟨_, loop_exit _ _ _ _ _ _ _ (Or.inr (by omega)), by simp⟩
  | succ d ih =>
    intro fuel i retries sleeps hr hf
    obtain ⟨f, rfl⟩ : ∃ f, fuel = f + 2 := ⟨fuel - 2, by omega⟩
    by_cases hn : (sendto i).n < 0
    · by_cases ht : transient (sendto i)
      · rw [loop_transient_step _ _ _ _ _ _ (hi i) ht (by omega)]
        obtain ⟨w, hw, hc⟩ := ih (f + 1) (i + 1) (retries + 1)
          (sleeps ++ [⟨0, READ_RETRY_MS * 1000⟩]) (by omega) (by omega)
        exact ⟨w, hw, by omega⟩
      · exact ⟨_, loop_failed _ _ _ _ _ _ (hi i) hn ht, by simp⟩
    · have hpos : 0 < (sendto i).n := lt_of_le_of_ne (not_lt.mp hn) (Ne.symm (hz i))
      rw [loop_sent_step _ _ _ _ _ _ (hi i) (not_lt.mp hn)]
      exact ⟨_, loop_exit _ _ _ _ _ _ _ (Or.inr (by omega)), by simp⟩

theorem loop_running (interrupted : Nat → Bool) (sendto : Nat → sendto_result)
    (hi : ∀ j, interrupted j = false) (fuel : Nat) :
    ∀ (i retries : Nat) (sleeps : List timespec), retries ≤ 5 →
      nlldpd_nonblock_write_loop interrupted sendto fuel i 0 retries sleeps = none →
      fuel + retries ≤ zero_sends sendto i fuel + 6 := by
  induction fuel with
  | zero => intro i retries sleeps hr _; simp [zero_sends]; omega
  | succ fuel ih =>
    intro i retries sleeps hr hnone
    by_cases hn : (sendto i).n < 0
    · have hnz : ¬ (sendto i).n = 0 := by omega
      by_cases ht : transient (sendto i)
      · by_cases hlast : retries + 1 ≤ 5
        · rw [loop_transient_step _ _ _ _ _ _ (hi i) ht hlast] at hnone
          have := ih (i + 1) (retries + 1) _ hlast hnone
          simp only [zero_sends, hnz, if_false]
          omega
        · rw [loop_transient_last _ _ _ _ _ _ (hi i) ht (by omega)] at hnone
          exact absurd hnone (by simp)
      · rw [loop_failed _ _ _ _ _ _ (hi i) hn ht] at hnone
        exact absurd hnone (by simp)
    · rw [loop_sent_step _ _ _ _ _ _ (hi i) (not_lt.mp hn)] at hnone
      by_cases h0 : (sendto i).n = 0
      · rw [h0] at hnone
        have := ih (i + 1) retries _ hr hnone
        simp only [zero_sends, h0, if_true]
        omega
      · cases fuel with
        | zero => simp only [zero_sends, h0, if_false]; omega
        | succ fuel =>
          rw [loop_exit _ _ _ _ _ _ _ (Or.inr (by omega))] at hnone
          exact absurd hnone (by simp)

theorem loop_zero_sends (interrupted : Nat → Bool) (sendto : Nat → sendto_result)
    (hi : ∀ j, interrupted j = false) (hz : ∀ j, (sendto j).n = 0) (fuel : Nat) :
    ∀ (i retries : Nat) (sleeps : List timespec),
      nlldpd_nonblock_write_loop interrupted sendto fuel i 0 retries sleeps = none := by
  induction fuel with
  | zero => intro i retries sleeps; rfl
  | succ fuel ih =>
    intro i retries sleeps
    rw [loop_sent_step _ _ _ _ _ _ (hi i) (by rw [hz i]), hz i]
    exact ih (i + 1) retries sleeps

/-! ## The claims on the send path -/

/-- Claim C12 fails as stated: when every call of `sendto` fails with `EAGAIN` and nothing
interrupts, `nlldpd_nonblock_write` makes six calls, not five; and when five calls fail and
the sixth sends the frame, it returns `true` and the cycle logs nothing, so the fifth
failure in a row does not end the send. -/
theorem c12_sixth_attempt_is_made :
    (∀ i, never_interrupted i = false) ∧ (∀ i, transient (always_eagain i)) ∧
    nlldpd_nonblock_write never_interrupted always_eagain 10 =
      some { ret := false, bytes_written := 0, sendto_calls := 6,
             sleeps := List.replicate 5 ⟨0, 100000⟩, errors := [] } ∧
    nlldpd_nonblock_write never_interrupted five_eagain_then_79 10 =
      some { ret := true, bytes_written := 79, sendto_calls := 6,
             sleeps := List.replicate 5 ⟨0, 100000⟩, errors := [] } ∧
    nlldpd_loop_send 79 never_interrupted five_eagain_then_79 10 = some [] := by
  refine ⟨fun _ => rfl, fun _ => ?_, by decide, by decide, by decide⟩
  show transient ⟨-1, EAGAIN⟩
  decide

/-- Claim C12, amended: with no interruption, when every call of `sendto` fails with a
transient error, `nlldpd_nonblock_write` makes exactly six calls: five failures are followed
by a backoff and a retry, the sixth makes it return `false` without a line of its own, and
the cycle logs `unable to send LLDPDU`. -/
theorem c12_six_attempts (interrupted : Nat → Bool) (sendto : Nat → sendto_result)
    (len fuel : Nat) (hi : ∀ i, interrupted i = false) (ht : ∀ i, transient (sendto i))
    (hf : 6 ≤ fuel) :
    nlldpd_nonblock_write interrupted sendto fuel =
      some { ret := false, bytes_written := 0, sendto_calls := 6,
             sleeps := List.replicate 5 ⟨0, READ_RETRY_MS * 1000⟩, errors := [] } ∧
    nlldpd_loop_send len interrupted sendto fuel = some ["unable to send LLDPDU"] := by
  obtain ⟨f, rfl⟩ : ∃ f, fuel = (f + 1) + 5 := ⟨fuel - 6, by omega⟩
  have hw : nlldpd_nonblock_write interrupted sendto (f + 1 + 5) =
      some { ret := false, bytes_written := 0, sendto_calls := 6,
             sleeps := List.replicate 5 ⟨0, READ_RETRY_MS * 1000⟩, errors := [] } := by
    unfold nlldpd_nonblock_write
    rw [loop_transients interrupted sendto 5 (f + 1) 0 0 [] (by omega)
        (fun j _ => ⟨hi _, ht _⟩),
      loop_transient_last _ _ _ _ _ _ (hi _) (ht _) (by omega)]
    rfl
  refine ⟨hw, ?_⟩
  unfold nlldpd_loop_send
  rw [hw]
  rfl

/-- Witness of claim C12, amended, on the sequence of calls that all fail with `EAGAIN`. -/
theorem c12_six_attempts_witness :
    (nlldpd_nonblock_write never_interrupted always_eagain 6).map (fun w => w.sendto_calls) =
      some 6 ∧
    nlldpd_loop_send 79 never_interrupted always_eagain 6 = some ["unable to send LLDPDU"] := by
  have ht : ∀ i, transient (always_eagain i) := fun _ => by
    show transient ⟨-1, EAGAIN⟩
    decide
  have h := c12_six_attempts never_interrupted always_eagain 79 6 (fun _ => rfl) ht
    (by decide)
  refine ⟨?_, h.2⟩
  rw [h.1]
  rfl

/-- Claim C13: with no interruption, when the first `k` calls of `sendto` fail with a
transient error, `k` at most 4, and call `k + 1` sends the `n` bytes of the frame, `n` not 0,
`nlldpd_nonblock_write` returns `true` with `*bytes_written = n` after `k + 1` calls and
`k` backoffs, it logs nothing, and the cycle logs nothing either. -/
theorem c13_transient_failures_absorbed (interrupted : Nat → Bool)
    (sendto : Nat → sendto_result) (k n fuel : Nat) (hk : k ≤ 4) (hn : 0 < n)
    (hi : ∀ i, interrupted i = false) (ht : ∀ i, i < k → transient (sendto i))
    (hs : (sendto k).n = n) (hf : k + 2 ≤ fuel) :
    nlldpd_nonblock_write interrupted sendto fuel =
      some { ret := true, bytes_written := n, sendto_calls := k + 1,
             sleeps := List.replicate k ⟨0, READ_RETRY_MS * 1000⟩, errors := [] } ∧
    nlldpd_loop_send n interrupted sendto fuel = some [] := by
  obtain ⟨f, rfl⟩ : ∃ f, fuel = (f + 1 + 1) + k := ⟨fuel - (k + 2), by omega⟩
  have hw : nlldpd_nonblock_write interrupted sendto (f + 1 + 1 + k) =
      some { ret := true, bytes_written := n, sendto_calls := k + 1,
             sleeps := List.replicate k ⟨0, READ_RETRY_MS * 1000⟩, errors := [] } := by
    unfold nlldpd_nonblock_write
    rw [loop_transients interrupted sendto k (f + 1 + 1) 0 0 [] (by omega)
        (fun j hj => ⟨hi _, by rw [Nat.zero_add]; exact ht j hj⟩),
      Nat.zero_add,
      loop_sent_step _ _ _ _ _ _ (hi _) (by rw [hs]; omega), hs,
      loop_exit _ _ _ _ _ _ _ (Or.inr (by simp; omega))]
    simp
  refine ⟨hw, ?_⟩
  unfold nlldpd_loop_send
  rw [hw]
  simp

/-- Witness of claim C13: one `EINTR`, then the 79 bytes of the frame are sent. -/
theorem c13_transient_failures_absorbed_witness :
    nlldpd_nonblock_write never_interrupted one_eintr_then_79 3 =
      some { ret := true, bytes_written := 79, sendto_calls := 2,
             sleeps := [⟨0, READ_RETRY_MS * 1000⟩], errors := [] } ∧
    nlldpd_loop_send 79 never_interrupted one_eintr_then_79 3 = some [] :=
  c13_transient_failures_absorbed never_interrupted one_eintr_then_79 1 79 3 (by decide)
    (by decide) (fun _ => rfl) (fun i hi => by interval_cases i; decide) (by decide)
    (by decide)

/-- Claim C14, evaluated on the code: when the interruption is seen at the first test of
`nlldpd_nonblock_write`, or at the test after the first backoff, the function returns `true`
with `*bytes_written = 0`, and since the frame of `privateCfg` has 79 bytes the cycle logs
`unable to send LLDPDU`. -/
theorem c14_interruption_is_reported :
    nlldpd_loop_len privateCfg = 79 ∧
    nlldpd_nonblock_write always_interrupted always_eagain 10 =
      some { ret := true, bytes_written := 0, sendto_calls := 0, sleeps := [], errors := [] } ∧
    nlldpd_loop_send (nlldpd_loop_len privateCfg) always_interrupted always_eagain 10 =
      some ["unable to send LLDPDU"] ∧
    nlldpd_nonblock_write interrupted_after_first always_eagain 10 =
      some { ret := true, bytes_written := 0, sendto_calls := 1,
             sleeps := [⟨0, 100000⟩], errors := [] } ∧
    nlldpd_loop_send (nlldpd_loop_len privateCfg) interrupted_after_first always_eagain 10 =
      some ["unable to send LLDPDU"] := by
  have hlen : nlldpd_loop_len privateCfg = 79 := by decide
  rw [hlen]
  refine ⟨rfl, by decide, by decide, by decide, by decide⟩

/-- Claim C15, evaluated on the code: when `socket` fails, or when `bind` fails,
`nlldpd_main` logs the failure and does not enter the loop, and `main` then returns
`EXIT_SUCCESS`, as it does for every outcome of the setup. -/
theorem c15_setup_failure_exits_with_success :
    nlldpd_main no_socket =
      { errors := ["unable to open send socket"], loop_entered := false, closed := false } ∧
    main_exit_status true true true no_socket = EXIT_SUCCESS ∧
    nlldpd_main no_bind =
      { errors := ["unable to bind send socket"], loop_entered := false, closed := true } ∧
    main_exit_status true true true no_bind = EXIT_SUCCESS ∧
    (∀ e : setup_env, main_exit_status true true true e = EXIT_SUCCESS) ∧
    EXIT_SUCCESS ≠ EXIT_FAILURE := by
  refine ⟨by decide, by decide, by decide, by decide, fun _ => rfl, by decide⟩

/-- Claim C16, evaluated on the code: after one transient failure the argument of
`nanosleep` is 0 seconds and `READ_RETRY_MS * 1000` = 100,000 nanoseconds, which is 100
microseconds; 100 milliseconds would be 100,000,000 nanoseconds. -/
theorem c16_backoff_is_100_microseconds :
    (nlldpd_nonblock_write never_interrupted one_eintr_then_79 10).map (fun w => w.sleeps) =
      some [{ tv_sec := 0, tv_nsec := 100000 }] ∧
    READ_RETRY_MS * 1000 = 100000 ∧
    READ_RETRY_MS * 1000000 = 100000000 ∧
    ({ tv_sec := 0, tv_nsec := 100000 } : timespec) ≠ { tv_sec := 0, tv_nsec := 100000000 } := by
  refine ⟨by decide, by decide, by decide, by decide⟩

/-- Claim C19: with no interruption, when no call of `sendto` returns 0,
`nlldpd_nonblock_write` returns after at most `READ_RETRY_TIMES + 1 = 6` calls, seven tests
of the loop being enough.  A call that returns 0 leaves `retries` as it is and goes on to
the next test; when all calls return 0 the loop never ends; and a loop still running after
`fuel` tests has seen `sendto` return 0 at least `fuel - 6` times. -/
theorem c19_bounded_attempts (interrupted : Nat → Bool) (sendto : Nat → sendto_result)
    (hi : ∀ i, interrupted i = false) :
    READ_RETRY_TIMES + 1 = 6 ∧
    ((∀ i, (sendto i).n ≠ 0) → ∀ fuel, 7 ≤ fuel →
      ∃ w, nlldpd_nonblock_write interrupted sendto fuel = some w ∧
        w.sendto_calls ≤ READ_RETRY_TIMES + 1) ∧
    (∀ fuel i retries sleeps, (sendto i).n = 0 →
      nlldpd_nonblock_write_loop interrupted sendto (fuel + 1) i 0 retries sleeps =
        nlldpd_nonblock_write_loop interrupted sendto fuel (i + 1) 0 retries sleeps) ∧
    ((∀ i, (sendto i).n = 0) → ∀ fuel, nlldpd_nonblock_write interrupted sendto fuel = none) ∧
    (∀ fuel, nlldpd_nonblock_write interrupted sendto fuel = none →
      fuel ≤ zero_sends sendto 0 fuel + (READ_RETRY_TIMES + 1)) := by
  refine ⟨rfl, ?_, ?_, ?_, ?_⟩
  · intro hz fuel hf
    obtain ⟨w, hw, hc⟩ := loop_returns interrupted sendto hi hz 5 fuel 0 0 [] rfl (by omega)
    exact ⟨w, hw, by simpa [READ_RETRY_TIMES] using hc⟩
  · intro fuel i retries sleeps h0
    rw [loop_sent_step _ _ _ _ _ _ (hi i) (by rw [h0]), h0]
    rfl
  · intro hz fuel
    exact loop_zero_sends interrupted sendto hi hz fuel 0 0 []
  · intro fuel hnone
    have := loop_running interrupted sendto hi fuel 0 0 [] (by omega) hnone
    simpa [READ_RETRY_TIMES] using this

/-- Witness of claim C19: five `EAGAIN` and then a send of 79 bytes take six calls; calls
that all return 0 keep the loop running through 50 tests. -/
theorem c19_bounded_attempts_witness :
    (∃ w, nlldpd_nonblock_write never_interrupted five_eagain_then_79 7 = some w ∧
      w.sendto_calls ≤ 6) ∧
    nlldpd_nonblock_write never_interrupted always_zero 50 = none := by
  have h1 := c19_bounded_attempts never_interrupted five_eagain_then_79 (fun _ => rfl)
  have h2 := c19_bounded_attempts never_interrupted always_zero (fun _ => rfl)
  refine ⟨h1.2.1 (fun i => ?_) 7 (by decide), h2.2.2.2.1 (fun _ => rfl) 50⟩
  unfold five_eagain_then_79
  split <;> decide

/-! ## The claims on the first TLVs and on an unknown mode -/

/-- Claim C17 fails as stated: `wide_descriptionCfg` and `longCfg` both have the interface
name `br0`, of 3 bytes; the pass of the first copies a port description of 600 bytes past
the 512 bytes of `tlv.u.data`, and the pass of the second runs past `packet`, 1069 bytes
against 1024; neither builds a frame whose bytes from offset 14 could be read. -/
theorem c17_no_frame_past_buffers :
    (wide_descriptionCfg.interface_id.length ≤ 510 ∧
      wide_descriptionCfg.port_description.length = 600 ∧
      nlldpd_loop_packet wide_descriptionCfg = none) ∧
    (longCfg.interface_id.length ≤ 510 ∧ nlldpd_loop_len longCfg = 1069 ∧
      sizeof_packet = 1024 ∧ nlldpd_loop_packet longCfg = none) :=
  ⟨⟨by decide, List.length_replicate 600 0x63, wide_descriptionCfg_packet⟩, by decide,
    longCfg_len, rfl, longCfg_packet⟩

/-- Claim C17, amended: with an interface name of at most 510 bytes, and every write of the
pass inside its buffer, the bytes of the frame from offset 14 are `0x02, 0x07, 0x04` and the
six bytes of the source address, then the two bytes of the big-endian word
`2 * 512 + (1 + n)`, `0x05` and the `n` bytes of the name, then at once
`0x06, 0x02, 0x00, 0x78`; the header of the Port ID reads back as type 2 and length
`1 + n`. -/
theorem c17_chassis_port_ttl (c : Config) (hb : c.in_bounds)
    (h : c.interface_id.length ≤ 510) :
    ∃ frame : List Nat, nlldpd_loop_packet c = some frame ∧
      (frame.drop 14).take (9 + (3 + c.interface_id.length) + 4) =
        [0x02, 0x07, 0x04] ++
        [c.mac.d0, c.mac.d1, c.mac.d2, c.mac.d3, c.mac.d4, c.mac.d5] ++
        [(2 * 512 + (1 + c.interface_id.length)) / 256,
          (2 * 512 + (1 + c.interface_id.length)) % 256, 0x05] ++
        c.interface_id ++
        [0x06, 0x02, 0x00, 0x78] ∧
      2 * 512 + (1 + c.interface_id.length) < 65536 ∧
      hdr_type ((2 * 512 + (1 + c.interface_id.length)) / 256)
        ((2 * 512 + (1 + c.interface_id.length)) % 256) = 2 ∧
      hdr_len ((2 * 512 + (1 + c.interface_id.length)) / 256)
        ((2 * 512 + (1 + c.interface_id.length)) % 256) = 1 + c.interface_id.length := by
  have h1 : TLV_HDR 1 7 = [0x02, 0x07] := by decide
  have h3 : TLV_HDR 3 2 = [0x06, 0x02] := by decide
  have ht : htons SEND_TTL = [0x00, 0x78] := by decide
  have h2 := TLV_HDR_word 2 (1 + c.interface_id.length) (by omega) (by omega)
  refine ⟨frame_bytes c, packet_of_in_bounds c hb, ?_, by omega, ?_, ?_⟩
  · obtain ⟨rest, hp⟩ := payload_front c
    have key : (frame_bytes c).drop 14 =
        ([0x02, 0x07, 0x04] ++
          [c.mac.d0, c.mac.d1, c.mac.d2, c.mac.d3, c.mac.d4, c.mac.d5] ++
          [(2 * 512 + (1 + c.interface_id.length)) / 256,
            (2 * 512 + (1 + c.interface_id.length)) % 256, 0x05] ++
          c.interface_id ++ [0x06, 0x02, 0x00, 0x78]) ++
        (((TLV_HDR 4 c.port_description.length ++ c.port_description) ++
          (TLV_HDR 5 c.system_name.length ++ c.system_name) ++
          (TLV_HDR 6 c.description.length ++ c.description)) ++ rest) := by
      rw [hp, h1, h2, h3, ht]
      simp [ndm_mac_addr_t.sa_data]
    rw [key]
    exact List.take_left' (by simp; omega)
  · rw [hdr_type_eq, Nat.div_add_mod']; omega
  · rw [hdr_len_eq, Nat.div_add_mod']; omega

/-- Witness of claim C17, amended, on `privateCfg`, whose interface name is `br0`. -/
theorem c17_chassis_port_ttl_witness :
    privateCfg.in_bounds ∧ privateCfg.interface_id.length ≤ 510 ∧
    ∃ frame : List Nat, nlldpd_loop_packet privateCfg = some frame ∧
      (frame.drop 14).take 19 =
        [0x02, 0x07, 0x04, 0x00, 0x11, 0x22, 0x33, 0x44, 0x55,
          0x04, 0x04, 0x05, 0x62, 0x72, 0x30, 0x06, 0x02, 0x00, 0x78] := by
  obtain ⟨frame, h0, h1, -⟩ :=
    c17_chassis_port_ttl privateCfg privateCfg_in_bounds (by decide)
  exact ⟨privateCfg_in_bounds, by decide, frame, h0, h1⟩

/-- Claim C18 fails as stated: in `longCfg` the three strings have 511, 511 and 0 bytes, yet
the pass runs past `packet`, 1069 bytes against 1024; in `wide_interfaceCfg` the three
strings have 0, 1 and 2 bytes, yet the pass copies an interface name of 600 bytes past the
511 bytes of `tlv.u.sub.data`; neither builds a frame that could hold the three TLVs. -/
theorem c18_no_string_tlvs_past_buffers :
    ((longCfg.port_description.length ≤ 511 ∧ longCfg.system_name.length ≤ 511 ∧
        longCfg.description.length ≤ 511) ∧
      nlldpd_loop_len longCfg = 1069 ∧ sizeof_packet = 1024 ∧
      nlldpd_loop_packet longCfg = none) ∧
    ((wide_interfaceCfg.port_description.length ≤ 511 ∧
        wide_interfaceCfg.system_name.length ≤ 511 ∧
        wide_interfaceCfg.description.length ≤ 511) ∧
      wide_interfaceCfg.interface_id.length = 600 ∧
      nlldpd_loop_packet wide_interfaceCfg = none) :=
  ⟨⟨longCfg_fits.2, longCfg_len, rfl, longCfg_packet⟩, by decide,
    List.length_replicate 600 0x63, wide_interfaceCfg_packet⟩

/-- Claim C18, amended: with port description, system name and system description of at
most 511 bytes each, and every write of the pass inside its buffer, the frame holds behind
the TTL TLV the two header bytes of type 4 and the length of the port description, the bytes
of the port description, then the same for type 5 and the system name, then the same for
type 6 and the system description; each header reads back as its type and the length of its
string; an empty string leaves the two header bytes `0x08 0x00`, `0x0A 0x00` or `0x0C 0x00`;
and with an interface name of at most 510 bytes the walk finds these three values, one for
each type. -/
theorem c18_string_tlvs (c : Config) (hb : c.in_bounds)
    (h4 : c.port_description.length ≤ 511)
    (h5 : c.system_name.length ≤ 511) (h6 : c.description.length ≤ 511) :
    ∃ frame : List Nat, nlldpd_loop_packet c = some frame ∧
    (frame.drop (14 + (9 + (3 + c.interface_id.length) + 4))).take
        ((2 + c.port_description.length) + (2 + c.system_name.length) +
          (2 + c.description.length)) =
      ([(4 * 512 + c.port_description.length) / 256,
          (4 * 512 + c.port_description.length) % 256] ++ c.port_description) ++
      ([(5 * 512 + c.system_name.length) / 256,
          (5 * 512 + c.system_name.length) % 256] ++ c.system_name) ++
      ([(6 * 512 + c.description.length) / 256,
          (6 * 512 + c.description.length) % 256] ++ c.description) ∧
    (hdr_type ((4 * 512 + c.port_description.length) / 256)
        ((4 * 512 + c.port_description.length) % 256) = 4 ∧
      hdr_len ((4 * 512 + c.port_description.length) / 256)
        ((4 * 512 + c.port_description.length) % 256) = c.port_description.length) ∧
    (hdr_type ((5 * 512 + c.system_name.length) / 256)
        ((5 * 512 + c.system_name.length) % 256) = 5 ∧
      hdr_len ((5 * 512 + c.system_name.length) / 256)
        ((5 * 512 + c.system_name.length) % 256) = c.system_name.length) ∧
    (hdr_type ((6 * 512 + c.description.length) / 256)
        ((6 * 512 + c.description.length) % 256) = 6 ∧
      hdr_len ((6 * 512 + c.description.length) / 256)
        ((6 * 512 + c.description.length) % 256) = c.description.length) ∧
    (c.port_description = [] →
      [(4 * 512 + c.port_description.length) / 256,
        (4 * 512 + c.port_description.length) % 256] ++ c.port_description = [0x08, 0x00]) ∧
    (c.system_name = [] →
      [(5 * 512 + c.system_name.length) / 256,
        (5 * 512 + c.system_name.length) % 256] ++ c.system_name = [0x0a, 0x00]) ∧
    (c.description = [] →
      [(6 * 512 + c.description.length) / 256,
        (6 * 512 + c.description.length) % 256] ++ c.description = [0x0c, 0x00]) ∧
    (c.interface_id.length ≤ 510 → ∃ tlvs : List (Nat × List Nat),
      frame_tlvs frame = some tlvs ∧
      (∀ v, (4, v) ∈ tlvs ↔ v = c.port_description) ∧
      (∀ v, (5, v) ∈ tlvs ↔ v = c.system_name) ∧
      (∀ v, (6, v) ∈ tlvs ↔ v = c.description)) := by
  have w4 := TLV_HDR_word 4 c.port_description.length (by omega) h4
  have w5 := TLV_HDR_word 5 c.system_name.length (by omega) h5
  have w6 := TLV_HDR_word 6 c.description.length (by omega) h6
  refine ⟨frame_bytes c, packet_of_in_bounds c hb, ?_, ⟨?_, ?_⟩, ⟨?_, ?_⟩, ⟨?_, ?_⟩, ?_, ?_, ?_,
    ?_⟩
  · obtain ⟨rest, hp⟩ := payload_front c
    have key : (frame_bytes c).drop 14 =
        ((TLV_HDR 1 7 ++ 4 :: c.mac.sa_data) ++
          (TLV_HDR 2 (1 + c.interface_id.length) ++ 5 :: c.interface_id) ++
          (TLV_HDR 3 2 ++ htons SEND_TTL)) ++
        ((([(4 * 512 + c.port_description.length) / 256,
              (4 * 512 + c.port_description.length) % 256] ++ c.port_description) ++
            ([(5 * 512 + c.system_name.length) / 256,
              (5 * 512 + c.system_name.length) % 256] ++ c.system_name) ++
            ([(6 * 512 + c.description.length) / 256,
              (6 * 512 + c.description.length) % 256] ++ c.description)) ++ rest) := by
      rw [hp, w4, w5, w6]
      simp only [List.append_assoc]
    rw [← List.drop_drop, key, List.drop_left' (by
      simp [TLV_HDR_length, htons, ndm_mac_addr_t.sa_data]; omega)]
    exact List.take_left' (by simp; omega)
  · rw [hdr_type_eq, Nat.div_add_mod']; omega
  · rw [hdr_len_eq, Nat.div_add_mod']; omega
  · rw [hdr_type_eq, Nat.div_add_mod']; omega
  · rw [hdr_len_eq, Nat.div_add_mod']; omega
  · rw [hdr_type_eq, Nat.div_add_mod']; omega
  · rw [hdr_len_eq, Nat.div_add_mod']; omega
  · intro he; rw [he]; rfl
  · intro he; rw [he]; rfl
  · intro he; rw [he]; rfl
  · intro hi
    refine ⟨written_tlvs c ++ [(0, [])], frame_tlvs_eq_written c ⟨hi, h4, h5, h6⟩, ?_, ?_, ?_⟩
    · exact fun v => (mem_written_string c v).1
    · exact fun v => (mem_written_string c v).2.1
    · exact fun v => (mem_written_string c v).2.2

/-- Witness of claim C18, amended, on `privateCfg`: an empty port description, a system name
of one byte and a system description of two. -/
theorem c18_string_tlvs_witness :
    privateCfg.in_bounds ∧
    (privateCfg.port_description.length ≤ 511 ∧ privateCfg.system_name.length ≤ 511 ∧
      privateCfg.description.length ≤ 511) ∧
    ∃ frame : List Nat, nlldpd_loop_packet privateCfg = some frame ∧
      (frame.drop 33).take 9 = [0x08, 0x00, 0x0a, 0x01, 0x4b, 0x0c, 0x02, 0x61, 0x62] := by
  obtain ⟨frame, h0, h1, -⟩ :=
    c18_string_tlvs privateCfg privateCfg_in_bounds (by decide) (by decide) (by decide)
  exact ⟨privateCfg_in_bounds, by decide, frame, h0, h1⟩

/-- Claim C20 fails as stated: `long_odd_modeCfg` is at the private level and its mode,
`bridge`, is none of `client`, `repeater`, `ap`, yet its pass runs past `packet` and builds
no frame that could carry a System Mode code or a Capabilities value. -/
theorem c20_no_mode_code_past_packet :
    (long_odd_modeCfg.mode ≠ "client" ∧ long_odd_modeCfg.mode ≠ "repeater" ∧
      long_odd_modeCfg.mode ≠ "ap") ∧
    long_odd_modeCfg.seclvl = "private" ∧
    sizeof_packet < nlldpd_loop_len long_odd_modeCfg ∧
    nlldpd_loop_packet long_odd_modeCfg = none := by
  refine ⟨by decide, rfl, ?_, long_odd_modeCfg_packet⟩
  by_contra hlt
  have hb : long_odd_modeCfg.in_bounds := by
    have hp : long_odd_modeCfg.port_description.length = 511 := List.length_replicate 511 0x61
    have hs : long_odd_modeCfg.system_name.length = 511 := List.length_replicate 511 0x61
    have hi : long_odd_modeCfg.interface_id.length = 3 := rfl
    have hd : long_odd_modeCfg.description.length = 2 := rfl
    refine ⟨?_, ?_, ?_, ?_, Nat.le_of_not_lt hlt⟩
    · rw [hi]; decide
    · rw [hp]; decide
    · rw [hs]; decide
    · rw [hd]; decide
  have hsome := packet_of_in_bounds _ hb
  rw [long_odd_modeCfg_packet] at hsome
  exact Option.noConfusion hsome

/-- Claim C20, amended: for a mode that is none of `client`, `repeater`, `ap`, and with
every write of the pass inside its buffer, a frame of the private level holds the
Capabilities TLV with the value `k` and right behind it the System Mode TLV with the code 1;
bit 4 of `k`, the Router bit, is set if and only if the mode is `router`, so for any other
such mode `k` is 4 for a bridge and 0 otherwise while the code is still 1. -/
theorem c20_unknown_mode (c : Config) (hb : c.in_bounds) (h1 : c.mode ≠ "client")
    (h2 : c.mode ≠ "repeater") (h3 : c.mode ≠ "ap") (hp : c.seclvl = "private") :
    ∃ frame : List Nat, nlldpd_loop_packet c = some frame ∧
    ∃ k : Nat,
      k = caps c ∧ mval c = 1 ∧
      (k / 16 % 2 = 1 ↔ c.mode = "router") ∧
      (c.mode ≠ "router" → k = if c.is_bridge then 4 else 0) ∧
      (∃ front rest : List Nat,
        frame =
          front ++ [0x0e, 0x04, k / 256, k % 256, k / 256, k % 256] ++
          [0xfe, 0x05, 0xce, 0x1e, 0xe7, 0x01, 0x01] ++ rest ∧
        rest.length = (if c.port ≠ 0 then 8 else 0) + 2) ∧
      (c.fits → ∃ tlvs : List (Nat × List Nat),
        frame_tlvs frame = some tlvs ∧
        (∀ v, (127, 0xce :: 0x1e :: 0xe7 :: 0x01 :: v) ∈ tlvs ↔ v = [1]) ∧
        (∀ v, (7, v) ∈ tlvs ↔ v = [k / 256, k % 256, k / 256, k % 256])) := by
  have hm : mval c = 1 := by
    unfold mval; rw [if_neg h1, if_neg h2, if_neg h3]
  have hk : caps c = (if c.is_bridge then 4 else 0) + (if c.mode = "router" then 16 else 0) := by
    rw [caps_eq, if_neg h2]
  have hle : caps c ≤ 20 := by
    rw [caps_eq]; split_ifs <;> decide
  have hh : htons (caps c) = [caps c / 256, caps c % 256] := by
    unfold htons; congr 1; omega
  refine ⟨frame_bytes c, packet_of_in_bounds c hb, caps c, rfl, hm, ?_, ?_, ?_, ?_⟩
  · rw [hk]
    by_cases hr : c.mode = "router" <;> cases c.is_bridge <;> simp [hr]
  · intro hr
    rw [hk, if_neg hr]; rfl
  · obtain ⟨front, -, hsplit⟩ := packet_split c
    have h7 : TLV_HDR 7 4 = [0x0e, 0x04] := by decide
    have h5 : TLV_HDR 127 5 = [0xfe, 0x05] := by decide
    rw [h7, h5, hh, mval_lt, hm, if_pos hp] at hsplit
    refine ⟨front ++ (if management_gate c then TLV_HDR 8 12 ++ management_value c else []),
      (if c.seclvl = "private" ∧ c.port ≠ 0 then
        TLV_HDR 127 6 ++ ([0xce, 0x1e, 0xe7, 2] ++ htons c.port) else []) ++ [0, 0], ?_, ?_⟩
    · rw [hsplit]
      simp only [List.append_assoc, List.cons_append, List.nil_append]
    · simp only [List.length_append, hp, true_and]
      split_ifs <;> simp [TLV_HDR_length, htons]
  · intro h
    refine ⟨written_tlvs c ++ [(0, [])], frame_tlvs_eq_written c h, ?_, ?_⟩
    · intro v
      rw [mem_written_127_mode, mval_lt, hm]
      simp [hp]
    · intro v
      rw [mem_written_7, hh]
      simp

/-- Witness of claim C20, amended, on `odd_modeCfg`, a private bridge whose mode is
`bridge`: the code is 1 and the Capabilities value is 4, without the Router bit. -/
theorem c20_unknown_mode_witness :
    odd_modeCfg.in_bounds ∧
    (odd_modeCfg.mode ≠ "client" ∧ odd_modeCfg.mode ≠ "repeater" ∧ odd_modeCfg.mode ≠ "ap" ∧
      odd_modeCfg.mode ≠ "router") ∧
    odd_modeCfg.seclvl = "private" ∧ odd_modeCfg.fits ∧
    ∃ frame : List Nat, nlldpd_loop_packet odd_modeCfg = some frame ∧
    ∃ tlvs : List (Nat × List Nat),
      frame_tlvs frame = some tlvs ∧
      (∀ v, (127, 0xce :: 0x1e :: 0xe7 :: 0x01 :: v) ∈ tlvs ↔ v = [1]) ∧
      (∀ v, (7, v) ∈ tlvs ↔ v = [0, 4, 0, 4]) := by
  obtain ⟨frame, h0, k, -, -, -, hk, -, hw⟩ :=
    c20_unknown_mode odd_modeCfg odd_modeCfg_in_bounds (by decide) (by decide) (by decide)
      (by decide)
  have e : k = 4 := hk (by decide)
  subst e
  obtain ⟨tlvs, t1, t2, t3⟩ := hw (by decide)
  exact ⟨odd_modeCfg_in_bounds, by decide, by decide, by decide, frame, h0, tlvs, t1, t2, t3⟩

end Nlldpd
